import Mathlib

/-
Verification of the dialogue-state / slot-filling controller of
`clinical_assistant_demo.py`: the profile merge engine (`merge_profile`),
the red-flag collector (`process_red_flags`), the deterministic completion
policy (`history_complete` plus the 30-question cap), the oracle-failure
fallback (`call_json`), the question de-duplication guard, and the per-turn
state machine of the chat input handler.

Python values flowing through the merge boundary are modelled by the
JSON-like type `Val`; operations that raise in Python (attribute errors on
non-mappings, unhashable set keys, unpacking a non-mapping) are modelled in
the `Except` monad.  A raising merge may leave partial in-place updates in
the Python session state; the model keeps the last fully-applied update,
which is faithful for every property stated below (none inspects the
profile of a crashed turn beyond the updates that completed).
-/

inductive Val where
  | null
  | bool (b : Bool)
  | int (n : Int)
  | str (s : String)
  | list (xs : List Val)
  | dict (xs : List (String × Val))
deriving Repr

mutual

def Val.decEq : (a b : Val) → Decidable (a = b)
  | .null, .null => isTrue rfl
  | .null, .bool _ => isFalse (fun h => Val.noConfusion h)
  | .null, .int _ => isFalse (fun h => Val.noConfusion h)
  | .null, .str _ => isFalse (fun h => Val.noConfusion h)
  | .null, .list _ => isFalse (fun h => Val.noConfusion h)
  | .null, .dict _ => isFalse (fun h => Val.noConfusion h)
  | .bool _, .null => isFalse (fun h => Val.noConfusion h)
  | .bool x, .bool y =>
      if h : x = y then isTrue (by rw [h]) else isFalse (fun hh => h (Val.bool.inj hh))
  | .bool _, .int _ => isFalse (fun h => Val.noConfusion h)
  | .bool _, .str _ => isFalse (fun h => Val.noConfusion h)
  | .bool _, .list _ => isFalse (fun h => Val.noConfusion h)
  | .bool _, .dict _ => isFalse (fun h => Val.noConfusion h)
  | .int _, .null => isFalse (fun h => Val.noConfusion h)
  | .int _, .bool _ => isFalse (fun h => Val.noConfusion h)
  | .int x, .int y =>
      if h : x = y then isTrue (by rw [h]) else isFalse (fun hh => h (Val.int.inj hh))
  | .int _, .str _ => isFalse (fun h => Val.noConfusion h)
  | .int _, .list _ => isFalse (fun h => Val.noConfusion h)
  | .int _, .dict _ => isFalse (fun h => Val.noConfusion h)
  | .str _, .null => isFalse (fun h => Val.noConfusion h)
  | .str _, .bool _ => isFalse (fun h => Val.noConfusion h)
  | .str _, .int _ => isFalse (fun h => Val.noConfusion h)
  | .str x, .str y =>
      if h : x = y then isTrue (by rw [h]) else isFalse (fun hh => h (Val.str.inj hh))
  | .str _, .list _ => isFalse (fun h => Val.noConfusion h)
  | .str _, .dict _ => isFalse (fun h => Val.noConfusion h)
  | .list _, .null => isFalse (fun h => Val.noConfusion h)
  | .list _, .bool _ => isFalse (fun h => Val.noConfusion h)
  | .list _, .int _ => isFalse (fun h => Val.noConfusion h)
  | .list _, .str _ => isFalse (fun h => Val.noConfusion h)
  | .list x, .list y =>
      match Val.decEqList x y with
      | isTrue h => isTrue (by rw [h])
      | isFalse h => isFalse (fun hh => h (Val.list.inj hh))
  | .list _, .dict _ => isFalse (fun h => Val.noConfusion h)
  | .dict _, .null => isFalse (fun h => Val.noConfusion h)
  | .dict _, .bool _ => isFalse (fun h => Val.noConfusion h)
  | .dict _, .int _ => isFalse (fun h => Val.noConfusion h)
  | .dict _, .str _ => isFalse (fun h => Val.noConfusion h)
  | .dict _, .list _ => isFalse (fun h => Val.noConfusion h)
  | .dict x, .dict y =>
      match Val.decEqDict x y with
      | isTrue h => isTrue (by rw [h])
      | isFalse h => isFalse (fun hh => h (Val.dict.inj hh))

def Val.decEqList : (a b : List Val) → Decidable (a = b)
  | [], [] => isTrue rfl
  | [], _ :: _ => isFalse (fun h => List.noConfusion h)
  | _ :: _, [] => isFalse (fun h => List.noConfusion h)
  | x :: xs, y :: ys =>
      match Val.decEq x y with
      | isFalse h => isFalse (fun hh => h (List.cons.inj hh).1)
      | isTrue h1 =>
        match Val.decEqList xs ys with
        | isTrue h2 => isTrue (by rw [h1, h2])
        | isFalse h2 => isFalse (fun hh => h2 (List.cons.inj hh).2)

def Val.decEqDict : (a b : List (String × Val)) → Decidable (a = b)
  | [], [] => isTrue rfl
  | [], _ :: _ => isFalse (fun h => List.noConfusion h)
  | _ :: _, [] => isFalse (fun h => List.noConfusion h)
  | (k, x) :: xs, (l, y) :: ys =>
      if hk : k = l then
        match Val.decEq x y with
        | isTrue h1 =>
          match Val.decEqDict xs ys with
          | isTrue h2 => isTrue (by rw [hk, h1, h2])
          | isFalse h2 => isFalse (fun hh => h2 (List.cons.inj hh).2)
        | isFalse h1 => isFalse (fun hh => h1 (congrArg Prod.snd (List.cons.inj hh).1))
      else isFalse (fun hh => hk (congrArg Prod.fst (List.cons.inj hh).1))

end

instance : DecidableEq Val := Val.decEq

/-- Python truthiness of a JSON-like value (`bool(v)`). -/
def truthy : Val → Bool
  | .null => false
  | .bool b => b
  | .int n => decide (n ≠ 0)
  | .str s => decide (s ≠ "")
  | .list xs => !xs.isEmpty
  | .dict xs => !xs.isEmpty

/-- Python hashability: `None`, booleans, numbers and strings are hashable;
lists and dicts are not (placing them in a `set` raises `TypeError`). -/
def pyHashable : Val → Bool
  | .list _ => false
  | .dict _ => false
  | _ => true

/-- Assoc-list lookup for a Python dict (`d[k]` / `d.get(k)` when present). -/
def lookupKey (xs : List (String × Val)) (k : String) : Option Val :=
  (xs.find? (fun p => p.1 == k)).map (fun p => p.2)

/-- Python `k in d` for a dict. -/
def hasKeyL (xs : List (String × Val)) (k : String) : Bool :=
  xs.any (fun p => p.1 == k)

/-- Python `d.get(k)` (default `None`). -/
def dget (xs : List (String × Val)) (k : String) : Val :=
  (lookupKey xs k).getD .null

/-- Python `\x7b**a, **b\x7d`: keys of `a` in order with values overridden by
`b` where present, then the keys of `b` not in `a`, in order. -/
def dictUnion (a b : List (String × Val)) : List (String × Val) :=
  a.map (fun p => match lookupKey b p.1 with
                  | some w => (p.1, w)
                  | none => p)
    ++ b.filter (fun p => !hasKeyL a p.1)

/-- Python `d[k] = v` on a dict: update in place if the key exists
(preserving position), otherwise append the new key at the end. -/
def setKey (xs : List (String × Val)) (k : String) (v : Val) : List (String × Val) :=
  if hasKeyL xs k then xs.map (fun p => if p.1 == k then (k, v) else p)
  else xs ++ [(k, v)]

/-- Python `v.get(k)` on an arbitrary value: dict lookup with default `None`;
an `AttributeError` on anything that is not a dict. -/
def Val.getKey : Val → String → Except String Val
  | .dict xs, k => .ok (dget xs k)
  | _, _ => .error "AttributeError: get"

/-- Python `v.get(k, d)` with an explicit default. -/
def Val.getDefault : Val → String → Val → Except String Val
  | .dict xs, k, d => .ok ((lookupKey xs k).getD d)
  | _, _, _ => .error "AttributeError: get"

def Val.isDict : Val → Bool
  | .dict _ => true
  | _ => false

/-- The structured patient record, as initialised at session start
(`st.session_state.profile`, lines 156-168 of the source). -/
structure Profile where
  demographics : List (String × Val)
  chief_complaint : Val
  modules : List (String × Val)
  medications : List Val
  allergies : List Val
  past_medical_history : Val
  family_history : Val
  social_history : Val
  red_flags : List Val
  red_flags_checked : Bool
  free_text_notes : List Val
deriving DecidableEq, Repr

def initialProfile : Profile :=
  { demographics := []
    chief_complaint := .null
    modules := []
    medications := []
    allergies := []
    past_medical_history := .null
    family_history := .null
    social_history := .null
    red_flags := []
    red_flags_checked := false
    free_text_notes := [] }

/- ──────────────────────────────────────────────
   Merge Engine (`merge_profile`, source lines 312-353)
   ────────────────────────────────────────────── -/

def medFields : List String := ["name", "dose", "route", "frequency"]

def allergyFields : List String := ["substance", "reaction"]

/-- The composite identity key of a medication/allergy entry:
`(m.get("name"), m.get("dose"), ...)`.  An `AttributeError` when the
entry is not a mapping. -/
def entryKey (fields : List String) (m : Val) : Except String (List Val) :=
  match m with
  | .dict d => .ok (fields.map (fun k => dget d k))
  | _ => .error "AttributeError: get"

/-- Compute an entry's key and hash it for `set` membership: a `TypeError`
when any component is unhashable (a list or a dict). -/
def hashedKey (fields : List String) (m : Val) : Except String (List Val) :=
  match entryKey fields m with
  | .error e => .error e
  | .ok ks => if ks.all pyHashable then .ok ks else .error "TypeError: unhashable type"

/-- The `seen` set comprehension over the entries already in the profile. -/
def buildSeen (fields : List String) : List Val → Except String (List (List Val))
  | [] => .ok []
  | m :: ms =>
      match hashedKey fields m with
      | .error e => .error e
      | .ok k =>
        match buildSeen fields ms with
        | .error e => .error e
        | .ok ks => .ok (k :: ks)

/-- The de-duplicating append loop over the fragment's entries:
`if key not in seen: cur.append(m); seen.add(key)`. -/
def mergeSet (fields : List String) (cur : List Val) (seen : List (List Val)) :
    List Val → Except String (List Val)
  | [] => .ok cur
  | m :: ms =>
      match hashedKey fields m with
      | .error e => .error e
      | .ok k =>
        if k ∈ seen then mergeSet fields cur seen ms
        else mergeSet fields (cur ++ [m]) (k :: seen) ms

/-- `medications` branch of the merge: only an `isinstance(..., list)` value
is folded in; anything else is skipped. -/
def applyMeds (p : Profile) (v : Val) : Except String Profile :=
  match v with
  | .list ms =>
      match buildSeen medFields p.medications with
      | .error e => .error e
      | .ok seen =>
        match mergeSet medFields p.medications seen ms with
        | .error e => .error e
        | .ok meds => .ok { p with medications := meds }
  | _ => .ok p

/-- `allergies` branch of the merge, keyed by substance+reaction. -/
def applyAllergies (p : Profile) (v : Val) : Except String Profile :=
  match v with
  | .list as =>
      match buildSeen allergyFields p.allergies with
      | .error e => .error e
      | .ok seen =>
        match mergeSet allergyFields p.allergies seen as with
        | .error e => .error e
        | .ok als => .ok { p with allergies := als }
  | _ => .ok p

/-- `profile["modules"][mod] = \x7b**profile["modules"].get(mod, \x7b\x7d), **data\x7d`
for each module of the fragment; unpacking a non-mapping raises `TypeError`. -/
def modulesLoop (cur : List (String × Val)) : List (String × Val) → Except String (List (String × Val))
  | [] => .ok cur
  | (k, v) :: rest =>
      match (lookupKey cur k).getD (.dict []) with
      | .dict od =>
        match v with
        | .dict d => modulesLoop (setKey cur k (.dict (dictUnion od d))) rest
        | _ => .error "TypeError: mapping required"
      | _ => .error "TypeError: mapping required"

/-- `modules` branch of the merge: per-module shallow dict union. -/
def applyModules (p : Profile) (v : Val) : Except String Profile :=
  match v with
  | .dict ms =>
      match modulesLoop p.modules ms with
      | .error e => .error e
      | .ok mods => .ok { p with modules := mods }
  | _ => .ok p

/-- Lines 316-317: fill `chief_complaint` only when the fragment's value is
truthy and the stored one is falsy. -/
def chiefStep (fs : List (String × Val)) (p : Profile) : Profile :=
  if truthy (dget fs "chief_complaint") && !truthy p.chief_complaint
  then { p with chief_complaint := dget fs "chief_complaint" } else p

/-- Lines 319-320: shallow dict union into `demographics` when the fragment
supplies a dict. -/
def demoStep (fs : List (String × Val)) (p : Profile) : Profile :=
  match dget fs "demographics" with
  | .dict d => { p with demographics := dictUnion p.demographics d }
  | _ => p

/-- Line 336-337: `past_medical_history` is overwritten wholesale by any
truthy fragment value. -/
def pmhStep (fs : List (String × Val)) (p : Profile) : Profile :=
  if truthy (dget fs "past_medical_history")
  then { p with past_medical_history := dget fs "past_medical_history" } else p

/-- Line 338-339: likewise for `family_history`. -/
def famStep (fs : List (String × Val)) (p : Profile) : Profile :=
  if truthy (dget fs "family_history")
  then { p with family_history := dget fs "family_history" } else p

/-- Line 340-341: likewise for `social_history`. -/
def socialStep (fs : List (String × Val)) (p : Profile) : Profile :=
  if truthy (dget fs "social_history")
  then { p with social_history := dget fs "social_history" } else p

/-- Lines 336-341 combined. -/
def historyStep (fs : List (String × Val)) (p : Profile) : Profile :=
  socialStep fs (famStep fs (pmhStep fs p))

/-- Lines 347-348: `free_text_notes` is extended when the fragment supplies
a list. -/
def notesStep (fs : List (String × Val)) (p : Profile) : Profile :=
  match dget fs "free_text_notes" with
  | .list ns => { p with free_text_notes := p.free_text_notes ++ ns }
  | _ => p

/-- Lines 350-351: `red_flags_checked` is assigned `bool(value)` whenever
the key is present in the fragment. -/
def rfcStep (fs : List (String × Val)) (p : Profile) : Profile :=
  if hasKeyL fs "red_flags_checked"
  then { p with red_flags_checked := truthy (dget fs "red_flags_checked") } else p

/-- The body of `merge_profile` once `extracted` is known to be a dict
(every `.get` then succeeds), given as the dict's entry list `fs`.
The three fallible branches (medications, allergies, modules) abort the
remaining updates on error, like the Python exception would. -/
def mergeDict (p0 : Profile) (fs : List (String × Val)) : Except String Profile :=
  match applyMeds (demoStep fs (chiefStep fs p0)) (dget fs "medications") with
  | .error e => .error e
  | .ok p3 =>
    match applyAllergies p3 (dget fs "allergies") with
    | .error e => .error e
    | .ok p4 =>
      match applyModules (historyStep fs p4) (dget fs "modules") with
      | .error e => .error e
      | .ok p8 => .ok (rfcStep fs (notesStep fs p8))

/-- `merge_profile(profile, extracted)`: an empty/falsy fragment is returned
unchanged; a truthy non-dict raises on the first `.get`; a dict is folded
field by field. -/
def merge_profile (profile : Profile) (extracted : Val) : Except String Profile :=
  if truthy extracted = false then .ok profile
  else
    match extracted with
    | .dict fs => mergeDict profile fs
    | _ => .error "AttributeError: get"

/- ──────────────────────────────────────────────
   Red-Flag Collector (`process_red_flags`, lines 355-360)
   ────────────────────────────────────────────── -/

/-- The `for f in new_flags: if f not in flags: flags.append(f)` loop. -/
def recordFlags (flags : List Val) : List Val → List Val
  | [] => flags
  | f :: rest => recordFlags (if f ∈ flags then flags else flags ++ [f]) rest

/-- `process_red_flags(new_flags)` acting on the stored flag list: falsy
input is a no-op; iterating a list visits its elements, a string its
characters, a dict its keys; iterating anything else raises `TypeError`. -/
def process_red_flags (flags : List Val) (new : Val) : Except String (List Val) :=
  if truthy new = false then .ok flags
  else
    match new with
    | .list ns => .ok (recordFlags flags ns)
    | .str s => .ok (recordFlags flags (s.toList.map (fun c => .str (String.mk [c]))))
    | .dict xs => .ok (recordFlags flags (xs.map (fun p => .str p.1)))
    | _ => .error "TypeError: not iterable"

/- ──────────────────────────────────────────────
   Completion Policy (`history_complete`, lines 241-255; `MAX_QUESTIONS`)
   ────────────────────────────────────────────── -/

def MAX_QUESTIONS : Nat := 30

/-- The deterministic required-field check. -/
def history_complete (p : Profile) : Bool :=
  truthy p.chief_complaint
  && (truthy (dget p.demographics "age_years") || truthy (dget p.demographics "sex"))
  && truthy p.past_medical_history
  && truthy p.family_history
  && truthy p.social_history
  && p.red_flags_checked

/-- The deterministic stop test of the chat handler (line 508):
`history_complete(profile) or q_count >= MAX_QUESTIONS`. -/
def deterministicStop (p : Profile) (q_count : Nat) : Bool :=
  history_complete p || decide (MAX_QUESTIONS ≤ q_count)

/- ──────────────────────────────────────────────
   Dialogue Controller state (session_state; lines 153-176, 221-225)
   ────────────────────────────────────────────── -/

structure Message where
  role : String
  content : String
deriving DecidableEq, Repr

structure SessionState where
  messages : List Message
  profile : Profile
  asked_questions : List String
  q_count : Nat
deriving DecidableEq, Repr

/-- The scripted opening question seeded before any Oracle call (line 222). -/
def opening : String := "What brings you in today?"

/-- The session state right after the seed block (lines 221-225) has run on
a fresh session: the opening question is in the transcript and the
asked-questions log, and the question counter is 1. -/
def initState : SessionState :=
  { messages := [⟨"assistant", opening⟩]
    profile := initialProfile
    asked_questions := [opening]
    q_count := 1 }

/- ──────────────────────────────────────────────
   Oracle boundary (`call_json`, lines 373-390; `regenerate_advance`, 392-402)
   ────────────────────────────────────────────── -/

/-- One Oracle invocation, seen from the controller: the transport can
raise, the returned text can fail `json.loads`, or a JSON value comes back. -/
inductive OracleOut where
  | transportError
  | malformed
  | json (v : Val)
deriving Repr

/-- The fixed safety step substituted for a non-parseable Oracle response
(lines 385-390). -/
def fallbackStep : Val := .dict
  [("next_question", .str "Sorry, I didn’t catch that. Could you rephrase?"),
   ("extracted_fields", .dict []),
   ("red_flags", .list [.str "parse_error"]),
   ("rationale", .str "Non-JSON; safety fallback.")]

/-- `call_json`: only the `json.loads` call sits inside the `try`; a raise
from the API request itself propagates to the caller. -/
def call_json : OracleOut → Except String Val
  | .transportError => .error "TransportError"
  | .malformed => .ok fallbackStep
  | .json v => .ok v

/-- `regenerate_advance`: no local `try` at all — both a transport error and
a `json.loads` failure raise to the caller. -/
def regenerate_advance : OracleOut → Except String Val
  | .transportError => .error "TransportError"
  | .malformed => .error "JSONDecodeError"
  | .json v => .ok v

/- ──────────────────────────────────────────────
   The chat input handler, one turn (lines 496-539)
   ────────────────────────────────────────────── -/

/-- The characters Python's `str.strip()` removes. -/
def pyWhitespace (c : Char) : Bool :=
  c = ' ' || c = '\t' || c = '\n' || c = '\r' || c = Char.ofNat 11 || c = Char.ofNat 12

/-- Python `s.strip()` (kept structural so it evaluates by `rfl`). -/
def pyStrip (s : String) : String :=
  String.mk (((s.data.dropWhile pyWhitespace).reverse.dropWhile pyWhitespace).reverse)

/-- Python `s.lower()` on ASCII (the only case exercised here). -/
def pyLowerChar (c : Char) : Char :=
  if 'A' ≤ c ∧ c ≤ 'Z' then Char.ofNat (c.toNat + 32) else c

def pyLower (s : String) : String :=
  String.mk (s.data.map pyLowerChar)

/-- Python `s.startswith(pre)`. -/
def pyStartsWith (s pre : String) : Bool :=
  pre.data.isPrefixOf s.data

/-- `v.strip()`: trims a string, raises `AttributeError` on anything else. -/
def stripVal : Val → Except String String
  | .str s => .ok (pyStrip s)
  | _ => .error "AttributeError: strip"

/-- `next((m["content"].strip() for m in reversed(messages) if m["role"] ==
"assistant"), "")` (lines 515-518). -/
def lastAssistant (msgs : List Message) : String :=
  match msgs.reverse.find? (fun m => m.role == "assistant") with
  | some m => pyStrip m.content
  | none => ""

/-- The terminal hand-off text (line 455), also the sentinel the model is
instructed to emit. -/
def final_message : String :=
  "Thank you for answering my questions. Your history is being forwarded to your doctor!"

/-- `finish_and_summarize` as far as the session state is concerned: the
hand-off line is appended to the transcript and the asked-questions log
(lines 456-457); summary generation touches neither. -/
def finishState (s : SessionState) : SessionState :=
  { s with messages := s.messages ++ [⟨"assistant", final_message⟩]
           asked_questions := s.asked_questions ++ [final_message] }

/-- Steps 3 of the handler as a single profile transformer: merge the
fragment, then fold the red flags (lines 504-505). -/
def mergePhase (p : Profile) (data : Val) : Except String Profile :=
  match data.getDefault "extracted_fields" (.dict []) with
  | .error e => .error e
  | .ok ex =>
    match merge_profile p ex with
    | .error e => .error e
    | .ok p1 =>
      match data.getDefault "red_flags" (.list []) with
      | .error e => .error e
      | .ok rf =>
        match process_red_flags p1.red_flags rf with
        | .error e => .error e
        | .ok red => .ok { p1 with red_flags := red }

/-- Outcome of the part of the handler before the de-duplication guard. -/
inductive PreOut where
  | crashedAt (s : SessionState)
  | terminalAt (s : SessionState)
  | proceed (s : SessionState) (nq : String)
deriving Repr

/-- Step 1 of the handler: append the user turn (line 498). -/
def withUser (s : SessionState) (user_text : String) : SessionState :=
  { s with messages := s.messages ++ [⟨"user", user_text⟩] }

def withProfile (s : SessionState) (p : Profile) : SessionState :=
  { s with profile := p }

/-- Handler steps 1-5: append the user turn, call the Oracle, merge fragment
and red flags (keeping the updates that completed before a raise), apply the
deterministic stop test, and compute the stripped proposed question. -/
def preGuard (s : SessionState) (user_text : String) (o1 : OracleOut) : PreOut :=
  match call_json o1 with
  | .error _ => .crashedAt (withUser s user_text)
  | .ok data =>
    match data.getDefault "extracted_fields" (.dict []) with
    | .error _ => .crashedAt (withUser s user_text)
    | .ok ex =>
      match merge_profile s.profile ex with
      | .error _ => .crashedAt (withUser s user_text)
      | .ok p1 =>
        match data.getDefault "red_flags" (.list []) with
        | .error _ => .crashedAt (withProfile (withUser s user_text) p1)
        | .ok rf =>
          match process_red_flags p1.red_flags rf with
          | .error _ => .crashedAt (withProfile (withUser s user_text) p1)
          | .ok red =>
            if deterministicStop { p1 with red_flags := red } s.q_count
            then .terminalAt (withProfile (withUser s user_text) { p1 with red_flags := red })
            else
              match data.getDefault "next_question" .null with
              | .error _ => .crashedAt (withProfile (withUser s user_text) { p1 with red_flags := red })
              | .ok nq0 =>
                match stripVal (if truthy nq0 then nq0 else .str "Please tell me more.") with
                | .error _ => .crashedAt (withProfile (withUser s user_text) { p1 with red_flags := red })
                | .ok nq1 => .proceed (withProfile (withUser s user_text) { p1 with red_flags := red }) nq1

/-- The de-duplication guard's trigger (line 519):
`last_assistant and next_q.lower() == last_assistant.lower()`. -/
def dedupGuardFires (la nq : String) : Bool :=
  (!(la == "")) && (pyLower nq == pyLower la)

/-- The fixed neutral continuation phrase of the guard's `except` branch. -/
def neutral_continuation : String := "Thanks—please add one new detail."

/-- The guard's single regeneration attempt (lines 520-526): any raise
inside the `try` — transport, `json.loads`, the merge, the red-flag fold, or
stripping a non-string question — falls back to the fixed phrase, keeping
whatever state updates completed before the raise. -/
def regenPhase (s : SessionState) (o2 : OracleOut) : SessionState × String :=
  match regenerate_advance o2 with
  | .error _ => (s, neutral_continuation)
  | .ok data2 =>
    match data2.getDefault "extracted_fields" (.dict []) with
    | .error _ => (s, neutral_continuation)
    | .ok ex2 =>
      match merge_profile s.profile ex2 with
      | .error _ => (s, neutral_continuation)
      | .ok p2 =>
        match data2.getDefault "red_flags" (.list []) with
        | .error _ => (withProfile s p2, neutral_continuation)
        | .ok rf2 =>
          match process_red_flags p2.red_flags rf2 with
          | .error _ => (withProfile s p2, neutral_continuation)
          | .ok red2 =>
            match data2.getDefault "next_question" .null with
            | .error _ => (withProfile s { p2 with red_flags := red2 }, neutral_continuation)
            | .ok nq =>
              match stripVal (if truthy nq then nq else .str neutral_continuation) with
              | .error _ => (withProfile s { p2 with red_flags := red2 }, neutral_continuation)
              | .ok nq' => (withProfile s { p2 with red_flags := red2 }, nq')

inductive Outcome where
  | crashed
  | terminal
  | cont
deriving DecidableEq, Repr

structure TurnOut where
  state : SessionState
  outcome : Outcome
  regens : Nat
  emitted : Option String
deriving Repr

/-- Step 8 of the handler: append the assistant question to the transcript
and the asked-questions log and bump the counter (lines 533-535). -/
def emitQuestion (s : SessionState) (nq : String) : SessionState :=
  { s with messages := s.messages ++ [⟨"assistant", nq⟩]
           asked_questions := s.asked_questions ++ [nq]
           q_count := s.q_count + 1 }

/-- Steps 7-8 of the handler after the final question text is fixed. -/
def emitOrFinish (s4 : SessionState) (regens : Nat) (nq2 : String) : TurnOut :=
  if pyStartsWith (pyLower nq2) "thank you for answering my questions" then
    ⟨finishState s4, .terminal, regens, none⟩
  else
    if MAX_QUESTIONS ≤ (emitQuestion s4 nq2).q_count then
      ⟨finishState (emitQuestion s4 nq2), .terminal, regens, some nq2⟩
    else ⟨emitQuestion s4 nq2, .cont, regens, some nq2⟩

/-- Handler steps 6-8: de-duplication guard, the model-declared-finish
sentinel test, then emit the question, bump the counter, and re-test the
hard cap. -/
def postGuard (s3 : SessionState) (o2 : OracleOut) (nq1 : String) : TurnOut :=
  if dedupGuardFires (lastAssistant s3.messages) nq1 then
    emitOrFinish (regenPhase s3 o2).1 1 (regenPhase s3 o2).2
  else emitOrFinish s3 0 nq1

/-- One full run of the chat input handler on a submitted answer. -/
def turn (s : SessionState) (user_text : String) (o1 o2 : OracleOut) : TurnOut :=
  match preGuard s user_text o1 with
  | .crashedAt s' => ⟨s', .crashed, 0, none⟩
  | .terminalAt s' => ⟨finishState s', .terminal, 0, none⟩
  | .proceed s3 nq1 => postGuard s3 o2 nq1

/-- One submitted answer together with the Oracle's behaviour on the main
call and on the (at most one) regeneration call. -/
structure TurnInput where
  text : String
  o1 : OracleOut
  o2 : OracleOut
deriving Repr

/-- Folding the handler over a whole session.  Streamlit keeps the session
state across turns whatever the outcome (even a crash or a finished turn
leaves the chat input rendered), so every input is processed. -/
def runSession (s : SessionState) : List TurnInput → SessionState
  | [] => s
  | i :: rest => runSession (turn s i.text i.o1 i.o2).state rest

/-- How many assistant questions the handler emits (handler step 8) over a
run of the session. -/
def emittedCount (s : SessionState) : List TurnInput → Nat
  | [] => 0
  | i :: rest =>
      (if (turn s i.text i.o1 i.o2).emitted.isSome then 1 else 0)
      + emittedCount (turn s i.text i.o1 i.o2).state rest

/- ──────────────────────────────────────────────
   Anatomy of a successful merge
   ────────────────────────────────────────────── -/

theorem applyMeds_shape {p : Profile} {v : Val} {p' : Profile}
    (h : applyMeds p v = .ok p') : ∃ meds, p' = { p with medications := meds } := by
  unfold applyMeds at h
  split at h
  · split at h
    · cases h
    · split at h
      · cases h
      · exact ⟨_, (Except.ok.inj h).symm⟩
  · exact ⟨p.medications, (Except.ok.inj h).symm⟩

theorem applyAllergies_shape {p : Profile} {v : Val} {p' : Profile}
    (h : applyAllergies p v = .ok p') : ∃ als, p' = { p with allergies := als } := by
  unfold applyAllergies at h
  split at h
  · split at h
    · cases h
    · split at h
      · cases h
      · exact ⟨_, (Except.ok.inj h).symm⟩
  · exact ⟨p.allergies, (Except.ok.inj h).symm⟩

theorem applyModules_shape {p : Profile} {v : Val} {p' : Profile}
    (h : applyModules p v = .ok p') : ∃ mods, p' = { p with modules := mods } := by
  unfold applyModules at h
  split at h
  · split at h
    · cases h
    · exact ⟨_, (Except.ok.inj h).symm⟩
  · exact ⟨p.modules, (Except.ok.inj h).symm⟩

theorem mergeDict_ok {p0 : Profile} {fs : List (String × Val)} {p' : Profile}
    (h : mergeDict p0 fs = .ok p') :
    ∃ p3 p4 p8,
      applyMeds (demoStep fs (chiefStep fs p0)) (dget fs "medications") = .ok p3 ∧
      applyAllergies p3 (dget fs "allergies") = .ok p4 ∧
      applyModules (historyStep fs p4) (dget fs "modules") = .ok p8 ∧
      p' = rfcStep fs (notesStep fs p8) := by
  unfold mergeDict at h
  split at h
  · cases h
  next p3 h3 =>
    split at h
    · cases h
    next p4 h4 =>
      split at h
      · cases h
      next p8 h8 =>
        exact ⟨p3, p4, p8, h3, h4, h8, (Except.ok.inj h).symm⟩

theorem merge_profile_cases {p : Profile} {f : Val} {p' : Profile}
    (h : merge_profile p f = .ok p') :
    (truthy f = false ∧ p' = p) ∨
    (∃ fs, f = .dict fs ∧ mergeDict p fs = .ok p') := by
  unfold merge_profile at h
  split at h
  next hf => exact .inl ⟨hf, (Except.ok.inj h).symm⟩
  next hf =>
    split at h
    next fs => exact .inr ⟨fs, rfl, h⟩
    · cases h

/- Projection lemmas: which profile fields each pure merge step leaves
untouched, and the value it writes to its own field. -/

@[simp] theorem chiefStep_demographics (fs : List (String × Val)) (p : Profile) : (chiefStep fs p).demographics = p.demographics := by unfold chiefStep; split <;> rfl
@[simp] theorem chiefStep_modules (fs : List (String × Val)) (p : Profile) : (chiefStep fs p).modules = p.modules := by unfold chiefStep; split <;> rfl
@[simp] theorem chiefStep_medications (fs : List (String × Val)) (p : Profile) : (chiefStep fs p).medications = p.medications := by unfold chiefStep; split <;> rfl
@[simp] theorem chiefStep_allergies (fs : List (String × Val)) (p : Profile) : (chiefStep fs p).allergies = p.allergies := by unfold chiefStep; split <;> rfl
@[simp] theorem chiefStep_pmh (fs : List (String × Val)) (p : Profile) : (chiefStep fs p).past_medical_history = p.past_medical_history := by unfold chiefStep; split <;> rfl
@[simp] theorem chiefStep_fh (fs : List (String × Val)) (p : Profile) : (chiefStep fs p).family_history = p.family_history := by unfold chiefStep; split <;> rfl
@[simp] theorem chiefStep_sh (fs : List (String × Val)) (p : Profile) : (chiefStep fs p).social_history = p.social_history := by unfold chiefStep; split <;> rfl
@[simp] theorem chiefStep_red_flags (fs : List (String × Val)) (p : Profile) : (chiefStep fs p).red_flags = p.red_flags := by unfold chiefStep; split <;> rfl
@[simp] theorem chiefStep_rfc (fs : List (String × Val)) (p : Profile) : (chiefStep fs p).red_flags_checked = p.red_flags_checked := by unfold chiefStep; split <;> rfl
@[simp] theorem chiefStep_notes (fs : List (String × Val)) (p : Profile) : (chiefStep fs p).free_text_notes = p.free_text_notes := by unfold chiefStep; split <;> rfl
theorem chiefStep_chief (fs : List (String × Val)) (p : Profile) :
    (chiefStep fs p).chief_complaint
      = (if truthy (dget fs "chief_complaint") && !truthy p.chief_complaint
         then dget fs "chief_complaint" else p.chief_complaint) := by
  unfold chiefStep; split <;> rfl

@[simp] theorem demoStep_chief (fs : List (String × Val)) (p : Profile) : (demoStep fs p).chief_complaint = p.chief_complaint := by unfold demoStep; split <;> rfl
@[simp] theorem demoStep_modules (fs : List (String × Val)) (p : Profile) : (demoStep fs p).modules = p.modules := by unfold demoStep; split <;> rfl
@[simp] theorem demoStep_medications (fs : List (String × Val)) (p : Profile) : (demoStep fs p).medications = p.medications := by unfold demoStep; split <;> rfl
@[simp] theorem demoStep_allergies (fs : List (String × Val)) (p : Profile) : (demoStep fs p).allergies = p.allergies := by unfold demoStep; split <;> rfl
@[simp] theorem demoStep_pmh (fs : List (String × Val)) (p : Profile) : (demoStep fs p).past_medical_history = p.past_medical_history := by unfold demoStep; split <;> rfl
@[simp] theorem demoStep_fh (fs : List (String × Val)) (p : Profile) : (demoStep fs p).family_history = p.family_history := by unfold demoStep; split <;> rfl
@[simp] theorem demoStep_sh (fs : List (String × Val)) (p : Profile) : (demoStep fs p).social_history = p.social_history := by unfold demoStep; split <;> rfl
@[simp] theorem demoStep_red_flags (fs : List (String × Val)) (p : Profile) : (demoStep fs p).red_flags = p.red_flags := by unfold demoStep; split <;> rfl
@[simp] theorem demoStep_rfc (fs : List (String × Val)) (p : Profile) : (demoStep fs p).red_flags_checked = p.red_flags_checked := by unfold demoStep; split <;> rfl
@[simp] theorem demoStep_notes (fs : List (String × Val)) (p : Profile) : (demoStep fs p).free_text_notes = p.free_text_notes := by unfold demoStep; split <;> rfl

@[simp] theorem pmhStep_chief (fs : List (String × Val)) (p : Profile) : (pmhStep fs p).chief_complaint = p.chief_complaint := by unfold pmhStep; split <;> rfl
@[simp] theorem pmhStep_demographics (fs : List (String × Val)) (p : Profile) : (pmhStep fs p).demographics = p.demographics := by unfold pmhStep; split <;> rfl
@[simp] theorem pmhStep_modules (fs : List (String × Val)) (p : Profile) : (pmhStep fs p).modules = p.modules := by unfold pmhStep; split <;> rfl
@[simp] theorem pmhStep_medications (fs : List (String × Val)) (p : Profile) : (pmhStep fs p).medications = p.medications := by unfold pmhStep; split <;> rfl
@[simp] theorem pmhStep_allergies (fs : List (String × Val)) (p : Profile) : (pmhStep fs p).allergies = p.allergies := by unfold pmhStep; split <;> rfl
@[simp] theorem pmhStep_fh (fs : List (String × Val)) (p : Profile) : (pmhStep fs p).family_history = p.family_history := by unfold pmhStep; split <;> rfl
@[simp] theorem pmhStep_sh (fs : List (String × Val)) (p : Profile) : (pmhStep fs p).social_history = p.social_history := by unfold pmhStep; split <;> rfl
@[simp] theorem pmhStep_red_flags (fs : List (String × Val)) (p : Profile) : (pmhStep fs p).red_flags = p.red_flags := by unfold pmhStep; split <;> rfl
@[simp] theorem pmhStep_rfc (fs : List (String × Val)) (p : Profile) : (pmhStep fs p).red_flags_checked = p.red_flags_checked := by unfold pmhStep; split <;> rfl
@[simp] theorem pmhStep_notes (fs : List (String × Val)) (p : Profile) : (pmhStep fs p).free_text_notes = p.free_text_notes := by unfold pmhStep; split <;> rfl
@[simp] theorem famStep_chief (fs : List (String × Val)) (p : Profile) : (famStep fs p).chief_complaint = p.chief_complaint := by unfold famStep; split <;> rfl
@[simp] theorem famStep_demographics (fs : List (String × Val)) (p : Profile) : (famStep fs p).demographics = p.demographics := by unfold famStep; split <;> rfl
@[simp] theorem famStep_modules (fs : List (String × Val)) (p : Profile) : (famStep fs p).modules = p.modules := by unfold famStep; split <;> rfl
@[simp] theorem famStep_medications (fs : List (String × Val)) (p : Profile) : (famStep fs p).medications = p.medications := by unfold famStep; split <;> rfl
@[simp] theorem famStep_allergies (fs : List (String × Val)) (p : Profile) : (famStep fs p).allergies = p.allergies := by unfold famStep; split <;> rfl
@[simp] theorem famStep_pmh (fs : List (String × Val)) (p : Profile) : (famStep fs p).past_medical_history = p.past_medical_history := by unfold famStep; split <;> rfl
@[simp] theorem famStep_sh (fs : List (String × Val)) (p : Profile) : (famStep fs p).social_history = p.social_history := by unfold famStep; split <;> rfl
@[simp] theorem famStep_red_flags (fs : List (String × Val)) (p : Profile) : (famStep fs p).red_flags = p.red_flags := by unfold famStep; split <;> rfl
@[simp] theorem famStep_rfc (fs : List (String × Val)) (p : Profile) : (famStep fs p).red_flags_checked = p.red_flags_checked := by unfold famStep; split <;> rfl
@[simp] theorem famStep_notes (fs : List (String × Val)) (p : Profile) : (famStep fs p).free_text_notes = p.free_text_notes := by unfold famStep; split <;> rfl
@[simp] theorem socialStep_chief (fs : List (String × Val)) (p : Profile) : (socialStep fs p).chief_complaint = p.chief_complaint := by unfold socialStep; split <;> rfl
@[simp] theorem socialStep_demographics (fs : List (String × Val)) (p : Profile) : (socialStep fs p).demographics = p.demographics := by unfold socialStep; split <;> rfl
@[simp] theorem socialStep_modules (fs : List (String × Val)) (p : Profile) : (socialStep fs p).modules = p.modules := by unfold socialStep; split <;> rfl
@[simp] theorem socialStep_medications (fs : List (String × Val)) (p : Profile) : (socialStep fs p).medications = p.medications := by unfold socialStep; split <;> rfl
@[simp] theorem socialStep_allergies (fs : List (String × Val)) (p : Profile) : (socialStep fs p).allergies = p.allergies := by unfold socialStep; split <;> rfl
@[simp] theorem socialStep_pmh (fs : List (String × Val)) (p : Profile) : (socialStep fs p).past_medical_history = p.past_medical_history := by unfold socialStep; split <;> rfl
@[simp] theorem socialStep_fh (fs : List (String × Val)) (p : Profile) : (socialStep fs p).family_history = p.family_history := by unfold socialStep; split <;> rfl
@[simp] theorem socialStep_red_flags (fs : List (String × Val)) (p : Profile) : (socialStep fs p).red_flags = p.red_flags := by unfold socialStep; split <;> rfl
@[simp] theorem socialStep_rfc (fs : List (String × Val)) (p : Profile) : (socialStep fs p).red_flags_checked = p.red_flags_checked := by unfold socialStep; split <;> rfl
@[simp] theorem socialStep_notes (fs : List (String × Val)) (p : Profile) : (socialStep fs p).free_text_notes = p.free_text_notes := by unfold socialStep; split <;> rfl
theorem pmhStep_own (fs : List (String × Val)) (p : Profile) :
    (pmhStep fs p).past_medical_history
      = (if truthy (dget fs "past_medical_history") then dget fs "past_medical_history" else p.past_medical_history) := by
  unfold pmhStep; split <;> rfl
theorem famStep_own (fs : List (String × Val)) (p : Profile) :
    (famStep fs p).family_history
      = (if truthy (dget fs "family_history") then dget fs "family_history" else p.family_history) := by
  unfold famStep; split <;> rfl
theorem socialStep_own (fs : List (String × Val)) (p : Profile) :
    (socialStep fs p).social_history
      = (if truthy (dget fs "social_history") then dget fs "social_history" else p.social_history) := by
  unfold socialStep; split <;> rfl

@[simp] theorem notesStep_chief (fs : List (String × Val)) (p : Profile) : (notesStep fs p).chief_complaint = p.chief_complaint := by unfold notesStep; split <;> rfl
@[simp] theorem notesStep_demographics (fs : List (String × Val)) (p : Profile) : (notesStep fs p).demographics = p.demographics := by unfold notesStep; split <;> rfl
@[simp] theorem notesStep_modules (fs : List (String × Val)) (p : Profile) : (notesStep fs p).modules = p.modules := by unfold notesStep; split <;> rfl
@[simp] theorem notesStep_medications (fs : List (String × Val)) (p : Profile) : (notesStep fs p).medications = p.medications := by unfold notesStep; split <;> rfl
@[simp] theorem notesStep_allergies (fs : List (String × Val)) (p : Profile) : (notesStep fs p).allergies = p.allergies := by unfold notesStep; split <;> rfl
@[simp] theorem notesStep_pmh (fs : List (String × Val)) (p : Profile) : (notesStep fs p).past_medical_history = p.past_medical_history := by unfold notesStep; split <;> rfl
@[simp] theorem notesStep_fh (fs : List (String × Val)) (p : Profile) : (notesStep fs p).family_history = p.family_history := by unfold notesStep; split <;> rfl
@[simp] theorem notesStep_sh (fs : List (String × Val)) (p : Profile) : (notesStep fs p).social_history = p.social_history := by unfold notesStep; split <;> rfl
@[simp] theorem notesStep_red_flags (fs : List (String × Val)) (p : Profile) : (notesStep fs p).red_flags = p.red_flags := by unfold notesStep; split <;> rfl
@[simp] theorem notesStep_rfc (fs : List (String × Val)) (p : Profile) : (notesStep fs p).red_flags_checked = p.red_flags_checked := by unfold notesStep; split <;> rfl

@[simp] theorem rfcStep_chief (fs : List (String × Val)) (p : Profile) : (rfcStep fs p).chief_complaint = p.chief_complaint := by unfold rfcStep; split <;> rfl
@[simp] theorem rfcStep_demographics (fs : List (String × Val)) (p : Profile) : (rfcStep fs p).demographics = p.demographics := by unfold rfcStep; split <;> rfl
@[simp] theorem rfcStep_modules (fs : List (String × Val)) (p : Profile) : (rfcStep fs p).modules = p.modules := by unfold rfcStep; split <;> rfl
@[simp] theorem rfcStep_medications (fs : List (String × Val)) (p : Profile) : (rfcStep fs p).medications = p.medications := by unfold rfcStep; split <;> rfl
@[simp] theorem rfcStep_allergies (fs : List (String × Val)) (p : Profile) : (rfcStep fs p).allergies = p.allergies := by unfold rfcStep; split <;> rfl
@[simp] theorem rfcStep_pmh (fs : List (String × Val)) (p : Profile) : (rfcStep fs p).past_medical_history = p.past_medical_history := by unfold rfcStep; split <;> rfl
@[simp] theorem rfcStep_fh (fs : List (String × Val)) (p : Profile) : (rfcStep fs p).family_history = p.family_history := by unfold rfcStep; split <;> rfl
@[simp] theorem rfcStep_sh (fs : List (String × Val)) (p : Profile) : (rfcStep fs p).social_history = p.social_history := by unfold rfcStep; split <;> rfl
@[simp] theorem rfcStep_red_flags (fs : List (String × Val)) (p : Profile) : (rfcStep fs p).red_flags = p.red_flags := by unfold rfcStep; split <;> rfl
@[simp] theorem rfcStep_notes (fs : List (String × Val)) (p : Profile) : (rfcStep fs p).free_text_notes = p.free_text_notes := by unfold rfcStep; split <;> rfl
theorem rfcStep_rfc (fs : List (String × Val)) (p : Profile) :
    (rfcStep fs p).red_flags_checked
      = (if hasKeyL fs "red_flags_checked"
         then truthy (dget fs "red_flags_checked") else p.red_flags_checked) := by
  unfold rfcStep; split <;> rfl

/-- Everything a successful merge does to the scalar-valued fields,
expressed directly from the fragment's entries. -/
theorem mergeDict_scalar_fields {p0 : Profile} {fs : List (String × Val)} {p' : Profile}
    (h : mergeDict p0 fs = .ok p') :
    p'.chief_complaint = (if truthy (dget fs "chief_complaint") && !truthy p0.chief_complaint
                          then dget fs "chief_complaint" else p0.chief_complaint) ∧
    p'.past_medical_history = (if truthy (dget fs "past_medical_history")
                               then dget fs "past_medical_history" else p0.past_medical_history) ∧
    p'.family_history = (if truthy (dget fs "family_history")
                         then dget fs "family_history" else p0.family_history) ∧
    p'.social_history = (if truthy (dget fs "social_history")
                         then dget fs "social_history" else p0.social_history) ∧
    p'.red_flags_checked = (if hasKeyL fs "red_flags_checked"
                            then truthy (dget fs "red_flags_checked") else p0.red_flags_checked) ∧
    p'.red_flags = p0.red_flags := by
  obtain ⟨p3, p4, p8, h3, h4, h8, rfl⟩ := mergeDict_ok h
  obtain ⟨meds, rfl⟩ := applyMeds_shape h3
  obtain ⟨als, rfl⟩ := applyAllergies_shape h4
  obtain ⟨mods, rfl⟩ := applyModules_shape h8
  refine ⟨?_, ?_, ?_, ?_, ?_, ?_⟩ <;>
    simp [historyStep, pmhStep_own, famStep_own, socialStep_own, chiefStep_chief, rfcStep_rfc]

/- ──────────────────────────────────────────────
   C5 — chief complaint is set at most once
   ────────────────────────────────────────────── -/

/-- C5: `chief_complaint` is set at most once: whenever the stored value is
truthy (non-empty), a successful merge leaves it unchanged whatever value
the fragment carries; and the only way a merge changes it is from a falsy
(empty) value to a truthy one. -/
theorem C5_chief_complaint_set_once :
    ∀ (p : Profile) (f : Val) (p' : Profile), merge_profile p f = .ok p' →
      (truthy p.chief_complaint = true → p'.chief_complaint = p.chief_complaint) ∧
      (p'.chief_complaint ≠ p.chief_complaint →
        truthy p.chief_complaint = false ∧ truthy p'.chief_complaint = true) := by
  intro p f p' h
  rcases merge_profile_cases h with ⟨_, rfl⟩ | ⟨fs, rfl, hd⟩
  · exact ⟨fun _ => rfl, fun hne => absurd rfl hne⟩
  · have hc := (mergeDict_scalar_fields hd).1
    constructor
    · intro ht; rw [hc]; simp [ht]
    · intro hne
      rw [hc] at hne ⊢
      by_cases hcond : (truthy (dget fs "chief_complaint") && !truthy p.chief_complaint) = true
      · rw [if_pos hcond] at hne ⊢
        rcases Bool.and_eq_true_iff.mp hcond with ⟨hv, hnp⟩
        exact ⟨by simpa using hnp, hv⟩
      · rw [if_neg hcond] at hne
        exact absurd rfl hne

def pW5 : Profile := { initialProfile with chief_complaint := .str "chest pain" }

def fragW5 : Val :=
  .dict [("chief_complaint", .str "headache"), ("past_medical_history", .str "diabetes")]

def pW5' : Profile := { pW5 with past_medical_history := .str "diabetes" }

theorem C5_witness : pW5'.chief_complaint = pW5.chief_complaint :=
  (C5_chief_complaint_set_once pW5 fragW5 pW5' (by rfl)).1 (by rfl)

/- ──────────────────────────────────────────────
   C3 — history fields are overwritten wholesale, not merged key-by-key
   ────────────────────────────────────────────── -/

def pC3 : Profile :=
  { initialProfile with past_medical_history := .dict [("a", .str "x"), ("b", .str "y")] }

def fragC3 : Val := .dict [("past_medical_history", .dict [("b", .str "z")])]

/-- C3 counterexample: a profile whose `past_medical_history` holds the
mapping with keys "a" and "b" merged with a fragment supplying `\x7b"b": "z"\x7d`
loses the sibling key "a" entirely — the field is replaced wholesale, there
is no recursive key merge. -/
theorem C3_counterexample :
    (merge_profile pC3 fragC3).map Profile.past_medical_history
      = .ok (.dict [("b", .str "z")]) := by rfl

/-- C3 (amended): merging a fragment that supplies a truthy value for
`past_medical_history` (likewise `family_history`, `social_history`)
replaces the profile's field with the fragment's value wholesale —
discarding any keys of the previously stored mapping — while a falsy or
absent fragment value leaves the field unchanged. -/
theorem C3_history_overwrite :
    ∀ (p : Profile) (fs : List (String × Val)) (p' : Profile),
      merge_profile p (.dict fs) = .ok p' →
      p'.past_medical_history = (if truthy (dget fs "past_medical_history")
                                 then dget fs "past_medical_history"
                                 else p.past_medical_history) ∧
      p'.family_history = (if truthy (dget fs "family_history")
                           then dget fs "family_history" else p.family_history) ∧
      p'.social_history = (if truthy (dget fs "social_history")
                           then dget fs "social_history" else p.social_history) := by
  intro p fs p' h
  rcases merge_profile_cases h with ⟨hf, rfl⟩ | ⟨fs', heq, hd⟩
  · have hfs : fs = [] := by
      cases fs with
      | nil => rfl
      | cons q qs => simp [truthy] at hf
    subst hfs
    simp [dget, lookupKey, truthy]
  · cases Val.dict.inj heq
    obtain ⟨_, h2, h3, h4, _, _⟩ := mergeDict_scalar_fields hd
    exact ⟨h2, h3, h4⟩

theorem C3_amended_witness :
    (Val.dict [("b", Val.str "z")]) = (Val.dict [("b", Val.str "z")]) := by
  have h := C3_history_overwrite pC3 [("past_medical_history", .dict [("b", .str "z")])]
    { pC3 with past_medical_history := .dict [("b", .str "z")] } (by rfl)
  exact h.1.symm.trans (by rfl)

/- ──────────────────────────────────────────────
   C4 — red_flags_checked is NOT monotonic under merge
   ────────────────────────────────────────────── -/

/-- C4 counterexample: a profile with `red_flags_checked = true` merged with
the fragment `\x7b"red_flags_checked": false\x7d` comes out with the flag reset
to `false` — the merge assigns `bool(value)`, it does not OR. -/
theorem C4_counterexample :
    (merge_profile { initialProfile with red_flags_checked := true }
        (.dict [("red_flags_checked", .bool false)])).map Profile.red_flags_checked
      = .ok false := by rfl

/-- C4 (amended): whenever the key `red_flags_checked` is present in the
fragment, a successful merge overwrites the profile's flag with the boolean
coercion of the fragment's value — so the flag can transition true→false —
and when the key is absent the flag is unchanged. -/
theorem C4_rfc_assignment :
    ∀ (p : Profile) (fs : List (String × Val)) (p' : Profile),
      merge_profile p (.dict fs) = .ok p' →
      p'.red_flags_checked = (if hasKeyL fs "red_flags_checked"
                              then truthy (dget fs "red_flags_checked")
                              else p.red_flags_checked) := by
  intro p fs p' h
  rcases merge_profile_cases h with ⟨hf, rfl⟩ | ⟨fs', heq, hd⟩
  · have hfs : fs = [] := by
      cases fs with
      | nil => rfl
      | cons q qs => simp [truthy] at hf
    subst hfs
    simp [hasKeyL]
  · cases Val.dict.inj heq
    exact (mergeDict_scalar_fields hd).2.2.2.2.1

theorem C4_amended_witness :
    (false : Bool) = false := by
  have h := C4_rfc_assignment { initialProfile with red_flags_checked := true }
    [("red_flags_checked", .bool false)] initialProfile (by rfl)
  exact h.trans (by rfl)

/- ──────────────────────────────────────────────
   C9 — red-flag recording
   ────────────────────────────────────────────── -/

theorem recordFlags_spec : ∀ (ns flags : List Val),
    ∃ app, recordFlags flags ns = flags ++ app ∧ app.Sublist ns ∧
      (∀ f ∈ ns, f ∈ flags ++ app) ∧ (flags.Nodup → (flags ++ app).Nodup) := by
  intro ns
  induction ns with
  | nil =>
    intro flags
    exact ⟨[], by simp [recordFlags], List.nil_sublist _, by simp, by simp⟩
  | cons f rest ih =>
    intro flags
    by_cases hf : f ∈ flags
    · obtain ⟨app, h1, h2, h3, h4⟩ := ih flags
      refine ⟨app, ?_, h2.cons f, ?_, h4⟩
      · simpa [recordFlags, hf] using h1
      · intro g hg
        rcases List.mem_cons.mp hg with rfl | hg
        · exact List.mem_append_left _ hf
        · exact h3 g hg
    · obtain ⟨app, h1, h2, h3, h4⟩ := ih (flags ++ [f])
      refine ⟨f :: app, ?_, h2.cons₂ f, ?_, ?_⟩
      · rw [show flags ++ f :: app = (flags ++ [f]) ++ app by simp]
        simpa [recordFlags, hf] using h1
      · intro g hg
        rcases List.mem_cons.mp hg with rfl | hg
        · simp
        · have := h3 g hg
          simpa using this
      · intro hnd
        have : (flags ++ [f]).Nodup := by
          simpa [List.nodup_append] using ⟨hnd, hf⟩
        have := h4 this
        simpa using this

/-- C9: red-flag recording is an order-preserving, case-sensitive,
exact-match de-duplicated append: the stored list is preserved as a prefix,
the appended part is a subsequence of the new flags (order of arrival),
every new flag ends up present, no duplicate is introduced; concretely,
recording ["A","B"] then ["B","C"] onto an empty list yields exactly
["A","B","C"], and a lowercase "a" is not identified with "A". -/
theorem C9_red_flag_append :
    (∀ (flags ns out : List Val), process_red_flags flags (.list ns) = .ok out →
       ∃ app, out = flags ++ app ∧ app.Sublist ns ∧ (∀ f ∈ ns, f ∈ out) ∧
         (flags.Nodup → out.Nodup)) ∧
    process_red_flags [] (.list [.str "A", .str "B"]) = .ok [.str "A", .str "B"] ∧
    process_red_flags [.str "A", .str "B"] (.list [.str "B", .str "C"])
      = .ok [.str "A", .str "B", .str "C"] ∧
    process_red_flags [.str "A"] (.list [.str "a"]) = .ok [.str "A", .str "a"] := by
  refine ⟨?_, by rfl, by rfl, by rfl⟩
  intro flags ns out h
  unfold process_red_flags at h
  split at h
  next hfalse =>
    have hns : ns = [] := by
      cases ns with
      | nil => rfl
      | cons g gs => simp [truthy] at hfalse
    subst hns
    obtain rfl : flags = out := Except.ok.inj h
    exact ⟨[], by simp, List.nil_sublist _, by simp, by simp⟩
  next =>
    obtain rfl : recordFlags flags ns = out := Except.ok.inj h
    obtain ⟨app, h1, h2, h3, h4⟩ := recordFlags_spec ns flags
    exact ⟨app, h1, h2, by rw [h1]; exact h3, by rw [h1]; exact h4⟩

theorem C9_witness : (Val.str "C") ∈ ([Val.str "A", Val.str "B", Val.str "C"] : List Val) := by
  obtain ⟨app, h1, h2, h3, h4⟩ := C9_red_flag_append.1 [Val.str "A", Val.str "B"]
    [Val.str "B", Val.str "C"] [Val.str "A", Val.str "B", Val.str "C"] (by rfl)
  exact h3 _ (by simp)

/- ──────────────────────────────────────────────
   C2 — the merge is NOT total on arbitrary fragments
   ────────────────────────────────────────────── -/

/-- C2 counterexample: a fragment whose `medications` list contains a bare
string makes the merge raise (`m.get("name")` on a non-mapping), so a merge
can fail the turn. -/
theorem C2_counterexample :
    (merge_profile initialProfile (.dict [("medications", .list [.str "aspirin"])])).isOk
      = false := by rfl

/-- A medication/allergy entry the Python set logic accepts: a mapping whose
identity-key fields are all hashable values. -/
def goodEntry (fields : List String) (m : Val) : Bool :=
  match m with
  | .dict d => fields.all (fun k => pyHashable (dget d k))
  | _ => false

/-- A fragment value for `medications`/`allergies` that cannot raise: either
not a list at all (skipped by the `isinstance` guard) or a list of good
entries. -/
def goodListField (fields : List String) (v : Val) : Bool :=
  match v with
  | .list ms => ms.all (goodEntry fields)
  | _ => true

/-- A fragment value for `modules` that cannot raise: either not a dict
(skipped) or a dict all of whose values are mappings. -/
def goodModulesField (v : Val) : Bool :=
  match v with
  | .dict ms => ms.all (fun q => q.2.isDict)
  | _ => true

theorem hashedKey_ok {fields : List String} {m : Val} (h : goodEntry fields m = true) :
    ∃ k, hashedKey fields m = .ok k := by
  cases m <;> simp [goodEntry] at h
  next d =>
    refine ⟨fields.map (fun k => dget d k), ?_⟩
    simp [hashedKey, entryKey, List.all_map, Function.comp]
    intro k hk
    exact h k hk

theorem buildSeen_ok {fields : List String} : ∀ (ms : List Val),
    ms.all (goodEntry fields) = true → ∃ ks, buildSeen fields ms = .ok ks := by
  intro ms
  induction ms with
  | nil => exact fun _ => ⟨[], rfl⟩
  | cons m rest ih =>
    intro h
    rw [List.all_cons, Bool.and_eq_true] at h
    obtain ⟨k, hk⟩ := hashedKey_ok h.1
    obtain ⟨ks, hks⟩ := ih h.2
    exact ⟨k :: ks, by simp [buildSeen, hk, hks]⟩

theorem mergeSet_ok {fields : List String} : ∀ (ms cur : List Val) (seen : List (List Val)),
    ms.all (goodEntry fields) = true → ∃ out, mergeSet fields cur seen ms = .ok out := by
  intro ms
  induction ms with
  | nil => exact fun cur seen _ => ⟨cur, rfl⟩
  | cons m rest ih =>
    intro cur seen h
    rw [List.all_cons, Bool.and_eq_true] at h
    obtain ⟨k, hk⟩ := hashedKey_ok h.1
    by_cases hc : k ∈ seen
    · obtain ⟨out, ho⟩ := ih cur seen h.2
      exact ⟨out, by simp [mergeSet, hk, hc, ho]⟩
    · obtain ⟨out, ho⟩ := ih (cur ++ [m]) (k :: seen) h.2
      exact ⟨out, by simp [mergeSet, hk, hc, ho]⟩

theorem applyMeds_ok {p : Profile} {v : Val}
    (hp : p.medications.all (goodEntry medFields) = true)
    (hv : goodListField medFields v = true) :
    ∃ p', applyMeds p v = .ok p' := by
  cases v with
  | list ms =>
    simp only [goodListField] at hv
    obtain ⟨seen, hseen⟩ := buildSeen_ok p.medications hp
    obtain ⟨out, hout⟩ := mergeSet_ok ms p.medications seen hv
    exact ⟨{ p with medications := out }, by simp [applyMeds, hseen, hout]⟩
  | null => exact ⟨p, rfl⟩
  | bool b => exact ⟨p, rfl⟩
  | int n => exact ⟨p, rfl⟩
  | str s => exact ⟨p, rfl⟩
  | dict d => exact ⟨p, rfl⟩

theorem applyAllergies_ok {p : Profile} {v : Val}
    (hp : p.allergies.all (goodEntry allergyFields) = true)
    (hv : goodListField allergyFields v = true) :
    ∃ p', applyAllergies p v = .ok p' := by
  cases v with
  | list ms =>
    simp only [goodListField] at hv
    obtain ⟨seen, hseen⟩ := buildSeen_ok p.allergies hp
    obtain ⟨out, hout⟩ := mergeSet_ok ms p.allergies seen hv
    exact ⟨{ p with allergies := out }, by simp [applyAllergies, hseen, hout]⟩
  | null => exact ⟨p, rfl⟩
  | bool b => exact ⟨p, rfl⟩
  | int n => exact ⟨p, rfl⟩
  | str s => exact ⟨p, rfl⟩
  | dict d => exact ⟨p, rfl⟩

theorem lookup_isDict {cur : List (String × Val)}
    (hcur : cur.all (fun q => q.2.isDict) = true) (k : String) :
    ∃ od, (lookupKey cur k).getD (.dict []) = .dict od := by
  cases hl : lookupKey cur k with
  | none => exact ⟨[], rfl⟩
  | some v =>
    have hv : v.isDict = true := by
      unfold lookupKey at hl
      cases hf : cur.find? (fun p => p.1 == k) with
      | none => rw [hf] at hl; cases hl
      | some q =>
        rw [hf] at hl
        obtain rfl : q.2 = v := Option.some.inj hl
        exact List.all_eq_true.mp hcur q (List.mem_of_find?_eq_some hf)
    cases v <;> simp [Val.isDict] at hv
    next od => exact ⟨od, rfl⟩

theorem setKey_all_isDict {cur : List (String × Val)} {k : String}
    {d : List (String × Val)} (hcur : cur.all (fun q => q.2.isDict) = true) :
    (setKey cur k (.dict d)).all (fun q => q.2.isDict) = true := by
  unfold setKey
  split
  · rw [List.all_eq_true] at hcur ⊢
    intro q hq
    rw [List.mem_map] at hq
    obtain ⟨q0, hq0, rfl⟩ := hq
    by_cases hk : q0.1 == k
    · simp [hk, Val.isDict]
    · simp only [hk, if_neg, Bool.false_eq_true, not_false_iff, ite_false]
      exact hcur q0 hq0
  · rw [List.all_append, hcur]
    simp [Val.isDict]

theorem modulesLoop_ok : ∀ (new cur : List (String × Val)),
    cur.all (fun q => q.2.isDict) = true → new.all (fun q => q.2.isDict) = true →
    ∃ r, modulesLoop cur new = .ok r := by
  intro new
  induction new with
  | nil => exact fun cur _ _ => ⟨cur, rfl⟩
  | cons q rest ih =>
    intro cur hcur hnew
    obtain ⟨k, v⟩ := q
    rw [List.all_cons, Bool.and_eq_true] at hnew
    obtain ⟨h1, h2⟩ := hnew
    obtain ⟨d, rfl⟩ : ∃ d, v = .dict d := by
      cases v <;> simp [Val.isDict] at h1
      exact ⟨_, rfl⟩
    obtain ⟨od, hod⟩ := lookup_isDict hcur k
    obtain ⟨r, hr⟩ := ih (setKey cur k (.dict (dictUnion od d)))
      (setKey_all_isDict hcur) h2
    exact ⟨r, by simp [modulesLoop, hod, hr]⟩

theorem applyModules_ok {p : Profile} {v : Val}
    (hp : p.modules.all (fun q => q.2.isDict) = true)
    (hv : goodModulesField v = true) :
    ∃ p', applyModules p v = .ok p' := by
  cases v with
  | dict ms =>
    simp only [goodModulesField] at hv
    obtain ⟨r, hr⟩ := modulesLoop_ok ms p.modules hp hv
    exact ⟨{ p with modules := r }, by simp [applyModules, hr]⟩
  | null => exact ⟨p, rfl⟩
  | bool b => exact ⟨p, rfl⟩
  | int n => exact ⟨p, rfl⟩
  | str s => exact ⟨p, rfl⟩
  | list l => exact ⟨p, rfl⟩

/-- C2 (amended): the merge returns normally on every falsy fragment and on
every fragment mapping whose fallible fields are well-shaped — a
`medications`/`allergies` value that is a list has only mapping entries with
hashable identity-key fields (and the profile's stored entries are likewise),
and a `modules` value that is a dict maps every module to a mapping.
Top-level type mismatches (a non-list `medications`, a non-dict
`demographics`/`modules`, unknown extra keys) are skipped and never raise;
but a malformed element INSIDE such a container does raise
(`C2_counterexample`), so the claim as stated is false. -/
theorem C2_merge_total :
    (∀ (p : Profile) (fs : List (String × Val)),
      p.medications.all (goodEntry medFields) = true →
      p.allergies.all (goodEntry allergyFields) = true →
      p.modules.all (fun q => q.2.isDict) = true →
      goodListField medFields (dget fs "medications") = true →
      goodListField allergyFields (dget fs "allergies") = true →
      goodModulesField (dget fs "modules") = true →
      (merge_profile p (.dict fs)).isOk = true) ∧
    (∀ (p : Profile) (f : Val), truthy f = false → merge_profile p f = .ok p) := by
  constructor
  · intro p fs h1 h2 h3 h4 h5 h6
    obtain ⟨pm, hpm⟩ : ∃ pm, mergeDict p fs = .ok pm := by
      have h1' : (demoStep fs (chiefStep fs p)).medications.all (goodEntry medFields) = true := by
        simpa using h1
      obtain ⟨p3, hp3⟩ := applyMeds_ok h1' h4
      obtain ⟨meds, hm3⟩ := applyMeds_shape hp3
      have h2' : p3.allergies.all (goodEntry allergyFields) = true := by
        rw [hm3]; simpa using h2
      obtain ⟨p4, hp4⟩ := applyAllergies_ok h2' h5
      obtain ⟨als, hm4⟩ := applyAllergies_shape hp4
      have h3' : (historyStep fs p4).modules.all (fun q => q.2.isDict) = true := by
        simp only [historyStep, socialStep_modules, famStep_modules, pmhStep_modules, hm4, hm3]
        simpa using h3
      obtain ⟨p8, hp8⟩ := applyModules_ok h3' h6
      exact ⟨rfcStep fs (notesStep fs p8), by unfold mergeDict; simp only [hp3, hp4, hp8]⟩
    unfold merge_profile
    split
    · rfl
    · show (mergeDict p fs).isOk = true
      rw [hpm]
      rfl
  · intro p f h
    simp [merge_profile, h]

def fsW2 : List (String × Val) :=
  [("chief_complaint", .str "chest pain"),
   ("medications", .list [.dict [("name", .str "aspirin"), ("dose", .str "81mg"),
                                 ("route", .str "PO"), ("frequency", .str "daily")]])]

theorem C2_witness : (merge_profile initialProfile (.dict fsW2)).isOk = true :=
  C2_merge_total.1 initialProfile fsW2 (by rfl) (by rfl) (by rfl) (by rfl) (by rfl) (by rfl)

/- ──────────────────────────────────────────────
   C6 — medications / allergies behave as keyed sets
   ────────────────────────────────────────────── -/

theorem mergeSet_extends {fields : List String} : ∀ (ms cur : List Val)
    (seen : List (List Val)) (out : List Val),
    mergeSet fields cur seen ms = .ok out → ∃ app, out = cur ++ app := by
  intro ms
  induction ms with
  | nil =>
    intro cur seen out h
    exact ⟨[], by simpa using (Except.ok.inj h).symm⟩
  | cons m rest ih =>
    intro cur seen out h
    unfold mergeSet at h
    split at h
    · cases h
    next k hk =>
      split at h
      next hc =>
        exact ih cur seen out h
      next hc =>
        obtain ⟨app, rfl⟩ := ih (cur ++ [m]) (k :: seen) out h
        exact ⟨m :: app, by simp⟩

theorem mergeSet_main {fields : List String} : ∀ (ms cur : List Val)
    (seen : List (List Val)) (out : List Val),
    mergeSet fields cur seen ms = .ok out →
    (∀ m ∈ cur, ∃ k, hashedKey fields m = .ok k ∧ k ∈ seen) →
    (∀ k ∈ seen, ∃ m, m ∈ cur ∧ hashedKey fields m = .ok k) →
    (∀ m ∈ out, ∃ k, hashedKey fields m = .ok k) ∧
    (List.Pairwise (fun a b => hashedKey fields a ≠ hashedKey fields b) cur →
     List.Pairwise (fun a b => hashedKey fields a ≠ hashedKey fields b) out) ∧
    (∀ m ∈ ms, ∃ k, hashedKey fields m = .ok k ∧ ∃ m', m' ∈ out ∧ hashedKey fields m' = .ok k) := by
  intro ms
  induction ms with
  | nil =>
    intro cur seen out h hA hB
    obtain rfl : cur = out := Except.ok.inj h
    exact ⟨fun m hm => (hA m hm).imp (fun k hk => hk.1), fun hd => hd, by simp⟩
  | cons m rest ih =>
    intro cur seen out h hA hB
    unfold mergeSet at h
    split at h
    · cases h
    next k hk =>
      by_cases hc : k ∈ seen
      · rw [if_pos hc] at h
        obtain ⟨c1, c2, c3⟩ := ih cur seen out h hA hB
        refine ⟨c1, c2, ?_⟩
        intro m0 hm0
        rcases List.mem_cons.mp hm0 with heq | hm0
        · rw [heq]
          obtain ⟨m', hm', hk'⟩ := hB k hc
          obtain ⟨app, rfl⟩ := mergeSet_extends rest cur seen out h
          exact ⟨k, hk, m', List.mem_append_left _ hm', hk'⟩
        · exact c3 m0 hm0
      · rw [if_neg hc] at h
        have hA' : ∀ m0 ∈ cur ++ [m], ∃ k0, hashedKey fields m0 = .ok k0 ∧ k0 ∈ k :: seen := by
          intro m0 hm0
          rcases List.mem_append.mp hm0 with hm0 | hm0
          · obtain ⟨k0, hk0, hs0⟩ := hA m0 hm0
            exact ⟨k0, hk0, List.mem_cons_of_mem _ hs0⟩
          · obtain rfl : m0 = m := by simpa using hm0
            exact ⟨k, hk, List.mem_cons_self _ _⟩
        have hB' : ∀ k0 ∈ k :: seen, ∃ m0, m0 ∈ cur ++ [m] ∧ hashedKey fields m0 = .ok k0 := by
          intro k0 hk0
          rcases List.mem_cons.mp hk0 with rfl | hk0
          · exact ⟨m, List.mem_append_right _ (by simp), hk⟩
          · obtain ⟨m0, hm0, hkm0⟩ := hB k0 hk0
            exact ⟨m0, List.mem_append_left _ hm0, hkm0⟩
        obtain ⟨c1, c2, c3⟩ := ih (cur ++ [m]) (k :: seen) out h hA' hB'
        refine ⟨c1, ?_, ?_⟩
        · intro hd
          apply c2
          rw [List.pairwise_append]
          refine ⟨hd, List.pairwise_singleton _ _, ?_⟩
          intro a ha b hb
          obtain rfl : b = m := by simpa using hb
          obtain ⟨ka, hka, hsa⟩ := hA a ha
          rw [hka, hk]
          intro hEq
          obtain rfl : ka = k := Except.ok.inj hEq
          exact hc hsa
        · intro m0 hm0
          rcases List.mem_cons.mp hm0 with heq | hm0
          · rw [heq]
            obtain ⟨app, rfl⟩ := mergeSet_extends rest (cur ++ [m]) (k :: seen) out h
            exact ⟨k, hk, m, List.mem_append_left _ (List.mem_append_right _ (by simp)), hk⟩
          · exact c3 m0 hm0

theorem mergeSet_skip {fields : List String} : ∀ (ms cur : List Val) (seen : List (List Val)),
    (∀ m ∈ ms, ∃ k, hashedKey fields m = .ok k ∧ k ∈ seen) →
    mergeSet fields cur seen ms = .ok cur := by
  intro ms
  induction ms with
  | nil => intro cur seen _; rfl
  | cons m rest ih =>
    intro cur seen h
    obtain ⟨k, hk, hs⟩ := h m (List.mem_cons_self _ _)
    have := ih cur seen (fun m0 hm0 => h m0 (List.mem_cons_of_mem _ hm0))
    simp [mergeSet, hk, hs, this]

theorem buildSeen_spec {fields : List String} : ∀ (ms : List Val) (ks : List (List Val)),
    buildSeen fields ms = .ok ks →
    (∀ m ∈ ms, ∃ k, hashedKey fields m = .ok k ∧ k ∈ ks) ∧
    (∀ k ∈ ks, ∃ m, m ∈ ms ∧ hashedKey fields m = .ok k) := by
  intro ms
  induction ms with
  | nil =>
    intro ks h
    obtain rfl : ([] : List (List Val)) = ks := Except.ok.inj h
    exact ⟨by simp, by simp⟩
  | cons m rest ih =>
    intro ks h
    unfold buildSeen at h
    cases hk : hashedKey fields m with
    | error e => rw [hk] at h; cases h
    | ok k =>
      rw [hk] at h
      cases hrest : buildSeen fields rest with
      | error e => rw [hrest] at h; cases h
      | ok ks0 =>
        rw [hrest] at h
        obtain rfl : k :: ks0 = ks := Except.ok.inj h
        obtain ⟨i1, i2⟩ := ih ks0 hrest
        constructor
        · intro m0 hm0
          rcases List.mem_cons.mp hm0 with rfl | hm0
          · exact ⟨k, hk, List.mem_cons_self _ _⟩
          · obtain ⟨k0, hk0, hs0⟩ := i1 m0 hm0
            exact ⟨k0, hk0, List.mem_cons_of_mem _ hs0⟩
        · intro k0 hk0
          rcases List.mem_cons.mp hk0 with rfl | hk0
          · exact ⟨m, List.mem_cons_self _ _, hk⟩
          · obtain ⟨m0, hm0, hkm0⟩ := i2 k0 hk0
            exact ⟨m0, List.mem_cons_of_mem _ hm0, hkm0⟩

theorem buildSeen_ok_of_keys {fields : List String} : ∀ (ms : List Val),
    (∀ m ∈ ms, ∃ k, hashedKey fields m = .ok k) →
    ∃ ks, buildSeen fields ms = .ok ks := by
  intro ms
  induction ms with
  | nil => exact fun _ => ⟨[], rfl⟩
  | cons m rest ih =>
    intro h
    obtain ⟨k, hk⟩ := h m (List.mem_cons_self _ _)
    obtain ⟨ks, hks⟩ := ih (fun m0 hm0 => h m0 (List.mem_cons_of_mem _ hm0))
    exact ⟨k :: ks, by simp [buildSeen, hk, hks]⟩

theorem applyMeds_list {p : Profile} {ms : List Val} {p' : Profile}
    (h : applyMeds p (.list ms) = .ok p') :
    ∃ seen out, buildSeen medFields p.medications = .ok seen ∧
      mergeSet medFields p.medications seen ms = .ok out ∧
      p' = { p with medications := out } := by
  cases hseen : buildSeen medFields p.medications with
  | error e => simp [applyMeds, hseen] at h
  | ok seen =>
    cases hout : mergeSet medFields p.medications seen ms with
    | error e => simp [applyMeds, hseen, hout] at h
    | ok out =>
      refine ⟨seen, out, rfl, hout, ?_⟩
      have : applyMeds p (.list ms) = .ok { p with medications := out } := by
        simp [applyMeds, hseen, hout]
      rw [this] at h
      exact (Except.ok.inj h).symm

theorem applyAllergies_list {p : Profile} {ms : List Val} {p' : Profile}
    (h : applyAllergies p (.list ms) = .ok p') :
    ∃ seen out, buildSeen allergyFields p.allergies = .ok seen ∧
      mergeSet allergyFields p.allergies seen ms = .ok out ∧
      p' = { p with allergies := out } := by
  cases hseen : buildSeen allergyFields p.allergies with
  | error e => simp [applyAllergies, hseen] at h
  | ok seen =>
    cases hout : mergeSet allergyFields p.allergies seen ms with
    | error e => simp [applyAllergies, hseen, hout] at h
    | ok out =>
      refine ⟨seen, out, rfl, hout, ?_⟩
      have : applyAllergies p (.list ms) = .ok { p with allergies := out } := by
        simp [applyAllergies, hseen, hout]
      rw [this] at h
      exact (Except.ok.inj h).symm

/-- Where the medications and allergies of a successful merge come from. -/
theorem mergeDict_sets {p0 : Profile} {fs : List (String × Val)} {p' : Profile}
    (h : mergeDict p0 fs = .ok p') :
    ∃ p3 p4,
      applyMeds (demoStep fs (chiefStep fs p0)) (dget fs "medications") = .ok p3 ∧
      applyAllergies p3 (dget fs "allergies") = .ok p4 ∧
      p3.medications = p'.medications ∧ p3.allergies = p0.allergies ∧
      p4.allergies = p'.allergies ∧ p4.medications = p'.medications := by
  obtain ⟨p3, p4, p8, h3, h4, h8, rfl⟩ := mergeDict_ok h
  obtain ⟨meds, hm3⟩ := applyMeds_shape h3
  obtain ⟨als, hm4⟩ := applyAllergies_shape h4
  obtain ⟨mods, hm8⟩ := applyModules_shape h8
  refine ⟨p3, p4, h3, h4, ?_, ?_, ?_, ?_⟩
  · rw [hm8, hm4]; simp [historyStep]
  · rw [hm3]; simp
  · rw [hm8]; simp [historyStep]
  · rw [hm8, hm4]; simp [historyStep]

theorem applyMeds_id {p : Profile} {v : Val} (h : ∀ ms, v ≠ .list ms) :
    applyMeds p v = .ok p := by
  cases v
  case list ms => exact absurd rfl (h ms)
  all_goals rfl

theorem applyAllergies_id {p : Profile} {v : Val} (h : ∀ ms, v ≠ .list ms) :
    applyAllergies p v = .ok p := by
  cases v
  case list ms => exact absurd rfl (h ms)
  all_goals rfl

/-- Core properties of the de-duplicating set merge: the stored entries are
a prefix of the output, key-distinctness is preserved, and re-running the
same entry list over the output is a no-op. -/
theorem setMerge_core {fields : List String} {cur out : List Val}
    {seen : List (List Val)} {ms : List Val}
    (hb : buildSeen fields cur = .ok seen)
    (hm : mergeSet fields cur seen ms = .ok out) :
    (∃ app, out = cur ++ app) ∧
    (List.Pairwise (fun a b => hashedKey fields a ≠ hashedKey fields b) cur →
     List.Pairwise (fun a b => hashedKey fields a ≠ hashedKey fields b) out) ∧
    (∀ seen2 out2, buildSeen fields out = .ok seen2 →
      mergeSet fields out seen2 ms = .ok out2 → out2 = out) := by
  obtain ⟨hA, hB⟩ := buildSeen_spec cur seen hb
  obtain ⟨c1, c2, c3⟩ := mergeSet_main ms cur seen out hm hA hB
  refine ⟨mergeSet_extends ms cur seen out hm, c2, ?_⟩
  intro seen2 out2 hb2 hm2
  obtain ⟨hA2, hB2⟩ := buildSeen_spec out seen2 hb2
  have hskip : mergeSet fields out seen2 ms = .ok out := by
    apply mergeSet_skip
    intro m hm0
    obtain ⟨k, hk, m', hm', hk'⟩ := c3 m hm0
    obtain ⟨k0, hk0, hs0⟩ := hA2 m' hm'
    have hkk : k0 = k := by
      rw [hk'] at hk0
      exact (Except.ok.inj hk0).symm
    subst hkk
    exact ⟨k0, hk, hs0⟩
  rw [hskip] at hm2
  exact (Except.ok.inj hm2).symm

theorem applyMeds_props {q : Profile} {v : Val} {r : Profile} (h : applyMeds q v = .ok r) :
    (∃ app, r.medications = q.medications ++ app) ∧
    (List.Pairwise (fun a b => hashedKey medFields a ≠ hashedKey medFields b) q.medications →
     List.Pairwise (fun a b => hashedKey medFields a ≠ hashedKey medFields b) r.medications) ∧
    (∀ q2 r2, q2.medications = r.medications → applyMeds q2 v = .ok r2 →
      r2.medications = r.medications) := by
  by_cases hv : ∃ ms, v = .list ms
  · obtain ⟨ms, rfl⟩ := hv
    obtain ⟨seen, out, hb, hm, rfl⟩ := applyMeds_list h
    obtain ⟨hext, hdist, hidem⟩ := setMerge_core hb hm
    refine ⟨by simpa using hext, by simpa using hdist, ?_⟩
    intro q2 r2 hq2 h2
    obtain ⟨seen2, out2, hb2, hm2, rfl⟩ := applyMeds_list h2
    have hq2' : q2.medications = out := by simpa using hq2
    rw [hq2'] at hb2 hm2
    have hout : out2 = out := hidem seen2 out2 hb2 hm2
    simp [hout]
  · have hne : ∀ ms, v ≠ .list ms := fun ms he => hv ⟨ms, he⟩
    rw [applyMeds_id hne] at h
    obtain rfl : q = r := Except.ok.inj h
    refine ⟨⟨[], by simp⟩, id, ?_⟩
    intro q2 r2 hq2 h2
    rw [applyMeds_id hne] at h2
    obtain rfl : q2 = r2 := Except.ok.inj h2
    exact hq2

theorem applyAllergies_props {q : Profile} {v : Val} {r : Profile}
    (h : applyAllergies q v = .ok r) :
    (∃ app, r.allergies = q.allergies ++ app) ∧
    (List.Pairwise (fun a b => hashedKey allergyFields a ≠ hashedKey allergyFields b) q.allergies →
     List.Pairwise (fun a b => hashedKey allergyFields a ≠ hashedKey allergyFields b) r.allergies) ∧
    (∀ q2 r2, q2.allergies = r.allergies → applyAllergies q2 v = .ok r2 →
      r2.allergies = r.allergies) := by
  by_cases hv : ∃ ms, v = .list ms
  · obtain ⟨ms, rfl⟩ := hv
    obtain ⟨seen, out, hb, hm, rfl⟩ := applyAllergies_list h
    obtain ⟨hext, hdist, hidem⟩ := setMerge_core hb hm
    refine ⟨by simpa using hext, by simpa using hdist, ?_⟩
    intro q2 r2 hq2 h2
    obtain ⟨seen2, out2, hb2, hm2, rfl⟩ := applyAllergies_list h2
    have hq2' : q2.allergies = out := by simpa using hq2
    rw [hq2'] at hb2 hm2
    have hout : out2 = out := hidem seen2 out2 hb2 hm2
    simp [hout]
  · have hne : ∀ ms, v ≠ .list ms := fun ms he => hv ⟨ms, he⟩
    rw [applyAllergies_id hne] at h
    obtain rfl : q = r := Except.ok.inj h
    refine ⟨⟨[], by simp⟩, id, ?_⟩
    intro q2 r2 hq2 h2
    rw [applyAllergies_id hne] at h2
    obtain rfl : q2 = r2 := Except.ok.inj h2
    exact hq2

/-- C6: `medications` and `allergies` behave as sets over their composite
identity keys (name+dose+route+frequency, substance+reaction): a successful
merge never removes a stored entry (the old list is a prefix of the new),
preserves pairwise-distinctness of the identity keys (so no duplicate key is
ever introduced into a duplicate-free profile), and merging the identical
fragment a second time leaves both fields exactly as after the first
merge. -/
theorem C6_set_semantics :
    ∀ (p : Profile) (f : Val) (p1 : Profile), merge_profile p f = .ok p1 →
      (∃ app, p1.medications = p.medications ++ app) ∧
      (∃ app, p1.allergies = p.allergies ++ app) ∧
      (List.Pairwise (fun a b => hashedKey medFields a ≠ hashedKey medFields b) p.medications →
       List.Pairwise (fun a b => hashedKey medFields a ≠ hashedKey medFields b) p1.medications) ∧
      (List.Pairwise (fun a b => hashedKey allergyFields a ≠ hashedKey allergyFields b) p.allergies →
       List.Pairwise (fun a b => hashedKey allergyFields a ≠ hashedKey allergyFields b) p1.allergies) ∧
      (∀ p2, merge_profile p1 f = .ok p2 →
        p2.medications = p1.medications ∧ p2.allergies = p1.allergies) := by
  intro p f p1 h1
  by_cases ht : truthy f = false
  · have e1 : merge_profile p f = .ok p := by simp [merge_profile, ht]
    rw [e1] at h1
    obtain rfl : p = p1 := Except.ok.inj h1
    refine ⟨⟨[], by simp⟩, ⟨[], by simp⟩, id, id, ?_⟩
    intro p2 h2
    rw [e1] at h2
    obtain rfl : p = p2 := Except.ok.inj h2
    exact ⟨rfl, rfl⟩
  · rcases merge_profile_cases h1 with ⟨hf, _⟩ | ⟨fs, rfl, hd1⟩
    · exact absurd hf ht
    obtain ⟨p3, p4, hap3, hap4, hm31, ha30, ha41, hm41⟩ := mergeDict_sets hd1
    obtain ⟨⟨appm, hextm⟩, hdistm, hidemm⟩ := applyMeds_props hap3
    obtain ⟨⟨appa, hexta⟩, hdista, hidema⟩ := applyAllergies_props hap4
    refine ⟨⟨appm, ?_⟩, ⟨appa, ?_⟩, ?_, ?_, ?_⟩
    · rw [← hm31, hextm]; simp
    · rw [← ha41, hexta, ha30]
    · intro hp
      rw [← hm31]
      apply hdistm
      simpa using hp
    · intro hp
      rw [← ha41]
      apply hdista
      rw [ha30]; exact hp
    · intro p2 h2
      rcases merge_profile_cases h2 with ⟨hf, _⟩ | ⟨fs2, heq2, hd2⟩
      · exact absurd hf ht
      cases Val.dict.inj heq2
      obtain ⟨q3, q4, hbp3, hbp4, hQm3, hQa3, hQa4, hQm4⟩ := mergeDict_sets hd2
      have hq3m : q3.medications = p3.medications := by
        apply hidemm (demoStep fs (chiefStep fs p1)) q3 ?_ hbp3
        simp [hm31]
      have hq4a : q4.allergies = p4.allergies := by
        apply hidema q3 q4 ?_ hbp4
        rw [hQa3, ha41]
      constructor
      · rw [← hQm3, hq3m, hm31]
      · rw [← hQa4, hq4a, ha41]

def aspirinEntry : Val :=
  .dict [("name", .str "aspirin"), ("dose", .str "81mg"),
         ("route", .str "PO"), ("frequency", .str "daily")]

def mergedW6 : Profile :=
  { initialProfile with chief_complaint := .str "chest pain", medications := [aspirinEntry] }

theorem C6_witness : mergedW6.medications = mergedW6.medications ∧
    mergedW6.allergies = mergedW6.allergies :=
  (C6_set_semantics initialProfile (.dict fsW2) mergedW6 (by rfl)).2.2.2.2 mergedW6 (by rfl)

/- ──────────────────────────────────────────────
   Turn-level support lemmas
   ────────────────────────────────────────────── -/

@[simp] theorem finishState_q (s : SessionState) : (finishState s).q_count = s.q_count := rfl

@[simp] theorem finishState_profile (s : SessionState) : (finishState s).profile = s.profile := rfl

@[simp] theorem withUser_q (s : SessionState) (t : String) : (withUser s t).q_count = s.q_count := rfl

@[simp] theorem withUser_profile (s : SessionState) (t : String) : (withUser s t).profile = s.profile := rfl

@[simp] theorem withProfile_q (s : SessionState) (p : Profile) : (withProfile s p).q_count = s.q_count := rfl

@[simp] theorem withProfile_profile (s : SessionState) (p : Profile) : (withProfile s p).profile = p := rfl

@[simp] theorem withProfile_messages (s : SessionState) (p : Profile) : (withProfile s p).messages = s.messages := rfl

@[simp] theorem emitQuestion_q (s : SessionState) (nq : String) : (emitQuestion s nq).q_count = s.q_count + 1 := rfl

@[simp] theorem emitQuestion_profile (s : SessionState) (nq : String) : (emitQuestion s nq).profile = s.profile := rfl

theorem lastAssistant_user (msgs : List Message) (t : String) :
    lastAssistant (msgs ++ [⟨"user", t⟩]) = lastAssistant msgs := by
  unfold lastAssistant
  rw [List.reverse_append]
  simp [List.find?]

/-- When the Oracle call parses and the whole merge phase succeeds and the
deterministic stop test fires on the merged profile, the pre-guard part of
the handler is terminal. -/
theorem preGuard_terminal {s : SessionState} {t : String} {o1 : OracleOut} {data ex : Val}
    {p1 : Profile} {rf : Val} {red : List Val}
    (hc : call_json o1 = .ok data)
    (hex : data.getDefault "extracted_fields" (.dict []) = .ok ex)
    (hp1 : merge_profile s.profile ex = .ok p1)
    (hrf : data.getDefault "red_flags" (.list []) = .ok rf)
    (hred : process_red_flags p1.red_flags rf = .ok red)
    (hds : deterministicStop { p1 with red_flags := red } s.q_count = true) :
    preGuard s t o1 = .terminalAt (withProfile (withUser s t) { p1 with red_flags := red }) := by
  simp [preGuard, hc, hex, hp1, hrf, hred, hds]

/-- When additionally the deterministic stop test does not fire and the
proposed question strips to a string, the pre-guard part proceeds with it. -/
theorem preGuard_proceed {s : SessionState} {t : String} {o1 : OracleOut} {data ex : Val}
    {p1 : Profile} {rf : Val} {red : List Val} {nq0 : Val} {nq1 : String}
    (hc : call_json o1 = .ok data)
    (hex : data.getDefault "extracted_fields" (.dict []) = .ok ex)
    (hp1 : merge_profile s.profile ex = .ok p1)
    (hrf : data.getDefault "red_flags" (.list []) = .ok rf)
    (hred : process_red_flags p1.red_flags rf = .ok red)
    (hds : deterministicStop { p1 with red_flags := red } s.q_count = false)
    (hnq : data.getDefault "next_question" .null = .ok nq0)
    (hst : stripVal (if truthy nq0 then nq0 else .str "Please tell me more.") = .ok nq1) :
    preGuard s t o1 = .proceed (withProfile (withUser s t) { p1 with red_flags := red }) nq1 := by
  simp [preGuard, hc, hex, hp1, hrf, hred, hds, hnq, hst]

/-- Exhaustive shape of the pre-guard phase: it crashes, stops, or proceeds,
always preserving the question counter; and it only proceeds when the
deterministic stop test was false. -/
theorem preGuard_cases (s : SessionState) (t : String) (o1 : OracleOut) :
    (∃ s', preGuard s t o1 = .crashedAt s' ∧ s'.q_count = s.q_count) ∨
    (∃ s', preGuard s t o1 = .terminalAt s' ∧ s'.q_count = s.q_count) ∨
    (∃ s' nq, preGuard s t o1 = .proceed s' nq ∧ s'.q_count = s.q_count ∧
      deterministicStop s'.profile s'.q_count = false) := by
  unfold preGuard
  repeat' split
  all_goals first
    | exact Or.inl ⟨_, rfl, rfl⟩
    | exact Or.inr (Or.inl ⟨_, rfl, rfl⟩)
    | (refine Or.inr (Or.inr ⟨_, _, rfl, rfl, ?_⟩)
       simp_all)

/-- The regeneration attempt only ever touches the profile. -/
theorem regenPhase_shape (s : SessionState) (o2 : OracleOut) :
    (regenPhase s o2).1.q_count = s.q_count ∧
    (regenPhase s o2).1.messages = s.messages ∧
    (regenPhase s o2).1.asked_questions = s.asked_questions := by
  unfold regenPhase
  repeat' split
  all_goals exact ⟨rfl, rfl, rfl⟩

theorem emitOrFinish_regens (s4 : SessionState) (r : Nat) (nq2 : String) :
    (emitOrFinish s4 r nq2).regens = r := by
  unfold emitOrFinish
  repeat' split
  all_goals rfl

theorem emitOrFinish_q (s4 : SessionState) (r : Nat) (nq2 : String) :
    ((emitOrFinish s4 r nq2).emitted.isSome →
      (emitOrFinish s4 r nq2).state.q_count = s4.q_count + 1) ∧
    ((emitOrFinish s4 r nq2).emitted = none →
      (emitOrFinish s4 r nq2).state.q_count = s4.q_count) := by
  unfold emitOrFinish
  split
  · exact ⟨by simp, fun _ => by simp⟩
  · split
    · exact ⟨fun _ => by simp, by simp⟩
    · exact ⟨fun _ => by simp, by simp⟩

theorem postGuard_regens (s3 : SessionState) (o2 : OracleOut) (nq1 : String) :
    (postGuard s3 o2 nq1).regens
      = if dedupGuardFires (lastAssistant s3.messages) nq1 then 1 else 0 := by
  unfold postGuard
  split
  next h => simp [h, emitOrFinish_regens]
  next h => simp [h, emitOrFinish_regens]

theorem postGuard_q (s3 : SessionState) (o2 : OracleOut) (nq1 : String) :
    ((postGuard s3 o2 nq1).emitted.isSome →
      (postGuard s3 o2 nq1).state.q_count = s3.q_count + 1) ∧
    ((postGuard s3 o2 nq1).emitted = none →
      (postGuard s3 o2 nq1).state.q_count = s3.q_count) := by
  unfold postGuard
  split
  · have hq4 : (regenPhase s3 o2).1.q_count = s3.q_count := (regenPhase_shape s3 o2).1
    obtain ⟨h1, h2⟩ := emitOrFinish_q (regenPhase s3 o2).1 1 (regenPhase s3 o2).2
    exact ⟨fun he => by rw [h1 he, hq4], fun he => by rw [h2 he, hq4]⟩
  · exact emitOrFinish_q s3 0 nq1

/-- Per-turn counter law: the counter bumps by one exactly when a question
is emitted, and a question is only emitted strictly below the cap. -/
theorem turn_qcount (s : SessionState) (t : String) (o1 o2 : OracleOut) :
    ((turn s t o1 o2).emitted.isSome →
      (turn s t o1 o2).state.q_count = s.q_count + 1 ∧ s.q_count < MAX_QUESTIONS) ∧
    ((turn s t o1 o2).emitted = none → (turn s t o1 o2).state.q_count = s.q_count) := by
  rcases preGuard_cases s t o1 with ⟨s', hp, hq⟩ | ⟨s', hp, hq⟩ | ⟨s', nq, hp, hq, hds⟩
  · unfold turn
    rw [hp]
    exact ⟨by simp, fun _ => hq⟩
  · unfold turn
    rw [hp]
    exact ⟨by simp, fun _ => by simpa using hq⟩
  · unfold turn
    rw [hp]
    have hcap : s.q_count < MAX_QUESTIONS := by
      rw [deterministicStop, Bool.or_eq_false_iff] at hds
      have h2 := hds.2
      rw [hq] at h2
      simpa using h2
    obtain ⟨h1, h2⟩ := postGuard_q s' o2 nq
    constructor
    · intro he
      refine ⟨?_, hcap⟩
      rw [h1 he, hq]
    · intro he
      rw [h2 he, hq]

/- ──────────────────────────────────────────────
   C1 — deterministic, disjunctive completion decision
   ────────────────────────────────────────────── -/

/-- C1: the completion decision is deterministic and disjunctive: whenever
the Oracle response parses and the merge phase succeeds, the turn is
terminal as soon as the merged profile passes the required-field check —
for EVERY Oracle output, i.e. regardless of any finish declaration — and
likewise as soon as the question counter has reached the cap
(`MAX_QUESTIONS = 30`), even with all required fields missing. -/
theorem C1_deterministic_stop :
    MAX_QUESTIONS = 30 ∧
    ∀ (s : SessionState) (t : String) (o1 o2 : OracleOut) (data : Val) (pm : Profile),
      call_json o1 = .ok data →
      mergePhase s.profile data = .ok pm →
      (history_complete pm = true → (turn s t o1 o2).outcome = .terminal) ∧
      (MAX_QUESTIONS ≤ s.q_count → (turn s t o1 o2).outcome = .terminal) := by
  refine ⟨rfl, ?_⟩
  intro s t o1 o2 data pm hc hm
  have hinv : ∃ ex p1 rf red,
      data.getDefault "extracted_fields" (.dict []) = .ok ex ∧
      merge_profile s.profile ex = .ok p1 ∧
      data.getDefault "red_flags" (.list []) = .ok rf ∧
      process_red_flags p1.red_flags rf = .ok red ∧
      pm = { p1 with red_flags := red } := by
    unfold mergePhase at hm
    split at hm
    · cases hm
    next ex hex =>
      split at hm
      · cases hm
      next p1 hp1 =>
        split at hm
        · cases hm
        next rf hrf =>
          split at hm
          · cases hm
          next red hred =>
            exact ⟨ex, p1, rf, red, hex, hp1, hrf, hred, (Except.ok.inj hm).symm⟩
  obtain ⟨ex, p1, rf, red, hex, hp1, hrf, hred, rfl⟩ := hinv
  have key : deterministicStop { p1 with red_flags := red } s.q_count = true →
      (turn s t o1 o2).outcome = .terminal := by
    intro hds
    unfold turn
    rw [preGuard_terminal hc hex hp1 hrf hred hds]
  constructor
  · intro hh
    exact key (by simp [deterministicStop, hh])
  · intro hq
    exact key (by simp [deterministicStop, hq])

def completeProfile : Profile :=
  { initialProfile with
      chief_complaint := .str "chest pain"
      demographics := [("age_years", .int 50)]
      past_medical_history := .str "hypertension"
      family_history := .str "none significant"
      social_history := .str "non-smoker"
      red_flags_checked := true }

def completeState : SessionState :=
  { messages := [⟨"assistant", opening⟩]
    profile := completeProfile
    asked_questions := [opening]
    q_count := 5 }

theorem C1_witness :
    (turn completeState "done" (.json (.dict [])) .malformed).outcome = Outcome.terminal :=
  (C1_deterministic_stop.2 completeState "done" (.json (.dict [])) .malformed
    (.dict []) completeProfile (by rfl) (by rfl)).1 (by rfl)

/- ──────────────────────────────────────────────
   C10 — scripted opening and the 29-question budget
   ────────────────────────────────────────────── -/

theorem emittedCount_le (inputs : List TurnInput) : ∀ (s : SessionState),
    emittedCount s inputs ≤ MAX_QUESTIONS - s.q_count := by
  induction inputs with
  | nil => intro s; simp [emittedCount]
  | cons i rest ih =>
    intro s
    obtain ⟨h1, h2⟩ := turn_qcount s i.text i.o1 i.o2
    unfold emittedCount
    cases he : (turn s i.text i.o1 i.o2).emitted with
    | none =>
      have hq := h2 he
      have hrec := ih (turn s i.text i.o1 i.o2).state
      rw [hq] at hrec
      simp only [he, Option.isSome_none, Bool.false_eq_true, if_false]
      omega
    | some q =>
      obtain ⟨hq, hlt⟩ := h1 (by simp [he])
      have hrec := ih (turn s i.text i.o1 i.o2).state
      rw [hq] at hrec
      simp only [he, Option.isSome_some, if_true]
      unfold MAX_QUESTIONS at hlt hrec ⊢
      omega

/-- C10: at session start the controller seeds the fixed scripted opening
question into both the transcript and the asked-questions log and sets the
question counter to 1 (which therefore counts the scripted opening); since
the hard cap compares this counter against 30 before and after each
emission, at most 29 further (Oracle-driven) assistant questions are ever
emitted over any session, whatever the user's answers and the Oracle's
behaviour. -/
theorem C10_opening_and_cap :
    initState.messages = [⟨"assistant", opening⟩] ∧
    initState.asked_questions = [opening] ∧
    initState.q_count = 1 ∧
    opening = "What brings you in today?" ∧
    ∀ (inputs : List TurnInput), emittedCount initState inputs ≤ 29 := by
  refine ⟨rfl, rfl, rfl, rfl, ?_⟩
  intro inputs
  have h := emittedCount_le inputs initState
  simpa using h

/- ──────────────────────────────────────────────
   C7 — Oracle-failure fallback
   ────────────────────────────────────────────── -/

@[simp] theorem withUser_messages (s : SessionState) (t : String) :
    (withUser s t).messages = s.messages ++ [⟨"user", t⟩] := rfl

theorem postGuard_nofire {s3 : SessionState} {o2 : OracleOut} {nq1 : String}
    (hf : dedupGuardFires (lastAssistant s3.messages) nq1 = false) :
    postGuard s3 o2 nq1 = emitOrFinish s3 0 nq1 := by
  unfold postGuard
  rw [hf]
  simp

theorem postGuard_fire {s3 : SessionState} {o2 : OracleOut} {nq1 : String}
    (hf : dedupGuardFires (lastAssistant s3.messages) nq1 = true) :
    postGuard s3 o2 nq1 = emitOrFinish (regenPhase s3 o2).1 1 (regenPhase s3 o2).2 := by
  unfold postGuard
  rw [hf]
  simp

theorem emitOrFinish_cont {s4 : SessionState} {r : Nat} {nq2 : String}
    (hsent : pyStartsWith (pyLower nq2) "thank you for answering my questions" = false)
    (hcap : s4.q_count + 1 < MAX_QUESTIONS) :
    emitOrFinish s4 r nq2 = ⟨emitQuestion s4 nq2, .cont, r, some nq2⟩ := by
  unfold emitOrFinish
  rw [hsent]
  simp only [Bool.false_eq_true, if_false, emitQuestion_q]
  rw [if_neg (by omega)]

theorem emitOrFinish_emitted {s4 : SessionState} {r : Nat} {nq2 : String}
    (hsent : pyStartsWith (pyLower nq2) "thank you for answering my questions" = false) :
    (emitOrFinish s4 r nq2).emitted = some nq2 := by
  unfold emitOrFinish
  rw [hsent]
  simp only [Bool.false_eq_true, if_false]
  split <;> rfl

theorem emitOrFinish_profile (s4 : SessionState) (r : Nat) (nq2 : String) :
    (emitOrFinish s4 r nq2).state.profile = s4.profile := by
  unfold emitOrFinish
  repeat' split
  all_goals simp

/-- C7 counterexample: (a) a transport error is not caught — `call_json`'s
`try` wraps only `json.loads` — so the turn crashes with no fallback step
and no `parse_error` flag recorded; (b) a parse failure does not make the
turn non-terminal: with a complete profile the deterministic stop check
still ends the interview on that very turn. -/
theorem C7_counterexample :
    (turn initState "hi" .transportError .malformed).outcome = .crashed ∧
    (turn initState "hi" .transportError .malformed).state.profile.red_flags = [] ∧
    (turn completeState "ok" .malformed .malformed).outcome = .terminal := by
  exact ⟨rfl, rfl, rfl⟩

/-- C7 (amended): only a malformed (non-JSON-parseable) Oracle response is
recovered: `call_json` then returns the fixed safety step — the neutral
re-prompt, an empty fragment and the single red flag "parse_error" — and
the turn records "parse_error" as a red flag, emits the re-prompt and
continues, provided the deterministic stop condition does not hold on the
(unchanged) profile, the counter is at most 28, and the previous assistant
question is not itself the re-prompt.  A transport error instead propagates
out of `call_json` uncaught. -/
theorem C7_parse_fallback :
    call_json .malformed = .ok fallbackStep ∧
    (call_json .transportError).isOk = false ∧
    ∀ (s : SessionState) (t : String) (o2 : OracleOut),
      history_complete s.profile = false →
      s.q_count ≤ 28 →
      pyLower (lastAssistant s.messages) ≠ "sorry, i didn’t catch that. could you rephrase?" →
      (turn s t .malformed o2).outcome = .cont ∧
      (turn s t .malformed o2).emitted = some "Sorry, I didn’t catch that. Could you rephrase?" ∧
      (turn s t .malformed o2).regens = 0 ∧
      Val.str "parse_error" ∈ (turn s t .malformed o2).state.profile.red_flags := by
  refine ⟨rfl, rfl, ?_⟩
  intro s t o2 hh hq hla
  have hds : deterministicStop
      { s.profile with red_flags := recordFlags s.profile.red_flags [.str "parse_error"] }
      s.q_count = false := by
    have hhc : history_complete
        { s.profile with red_flags := recordFlags s.profile.red_flags [.str "parse_error"] }
        = history_complete s.profile := by
      simp [history_complete]
    simp only [deterministicStop, hhc, hh, Bool.false_or, decide_eq_false_iff_not, MAX_QUESTIONS]
    omega
  have hpre : preGuard s t .malformed = .proceed
      (withProfile (withUser s t)
        { s.profile with red_flags := recordFlags s.profile.red_flags [.str "parse_error"] })
      "Sorry, I didn’t catch that. Could you rephrase?" :=
    preGuard_proceed rfl rfl rfl rfl rfl hds rfl (by rfl)
  have hturn0 : turn s t .malformed o2 = postGuard
      (withProfile (withUser s t)
        { s.profile with red_flags := recordFlags s.profile.red_flags [.str "parse_error"] })
      o2 "Sorry, I didn’t catch that. Could you rephrase?" := by
    unfold turn
    rw [hpre]
  have hfired : dedupGuardFires
      (lastAssistant (withProfile (withUser s t)
        { s.profile with red_flags := recordFlags s.profile.red_flags [.str "parse_error"] }).messages)
      "Sorry, I didn’t catch that. Could you rephrase?" = false := by
    rw [withProfile_messages, withUser_messages, lastAssistant_user]
    unfold dedupGuardFires
    have h2 : (pyLower "Sorry, I didn’t catch that. Could you rephrase?"
        == pyLower (lastAssistant s.messages)) = false := by
      have hne : pyLower "Sorry, I didn’t catch that. Could you rephrase?"
          ≠ pyLower (lastAssistant s.messages) := by
        intro hEq
        apply hla
        rw [← hEq]
        rfl
      exact beq_eq_false_iff_ne.mpr hne
    rw [h2, Bool.and_false]
  have hturn : turn s t .malformed o2 = ⟨emitQuestion
      (withProfile (withUser s t)
        { s.profile with red_flags := recordFlags s.profile.red_flags [.str "parse_error"] })
      "Sorry, I didn’t catch that. Could you rephrase?", .cont, 0,
      some "Sorry, I didn’t catch that. Could you rephrase?"⟩ := by
    rw [hturn0, postGuard_nofire hfired, emitOrFinish_cont (by rfl)]
    simp only [withProfile_q, withUser_q, MAX_QUESTIONS]
    omega
  rw [hturn]
  refine ⟨rfl, rfl, rfl, ?_⟩
  show Val.str "parse_error" ∈ recordFlags s.profile.red_flags [Val.str "parse_error"]
  obtain ⟨app, h1, h2, h3, h4⟩ := recordFlags_spec [Val.str "parse_error"] s.profile.red_flags
  rw [h1]
  exact h3 _ (by simp)


theorem C7_amended_witness :
    (turn initState "my head hurts" .malformed .malformed).outcome = Outcome.cont ∧
    Val.str "parse_error" ∈ (turn initState "my head hurts" .malformed .malformed).state.profile.red_flags := by
  obtain ⟨h1, h2, h3, h4⟩ := C7_parse_fallback.2.2 initState "my head hurts" .malformed
    (by rfl) (by decide) (by decide)
  exact ⟨h1, h4⟩

/- ──────────────────────────────────────────────
   C8 — the de-duplication guard fires at most once per turn
   ────────────────────────────────────────────── -/

theorem mergePhase_inv {p : Profile} {data : Val} {pm : Profile}
    (hm : mergePhase p data = .ok pm) :
    ∃ ex p1 rf red,
      data.getDefault "extracted_fields" (.dict []) = .ok ex ∧
      merge_profile p ex = .ok p1 ∧
      data.getDefault "red_flags" (.list []) = .ok rf ∧
      process_red_flags p1.red_flags rf = .ok red ∧
      pm = { p1 with red_flags := red } := by
  unfold mergePhase at hm
  split at hm
  · cases hm
  next ex hex =>
    split at hm
    · cases hm
    next p1 hp1 =>
      split at hm
      · cases hm
      next rf hrf =>
        split at hm
        · cases hm
        next red hred =>
          exact ⟨ex, p1, rf, red, hex, hp1, hrf, hred, (Except.ok.inj hm).symm⟩

theorem regenPhase_fail {s : SessionState} {o2 : OracleOut}
    (h : (regenerate_advance o2).isOk = false) :
    regenPhase s o2 = (s, neutral_continuation) := by
  cases hre : regenerate_advance o2 with
  | error e => simp [regenPhase, hre]
  | ok v => rw [hre] at h; simp [Except.isOk, Except.toBool] at h

/-- A structurally successful regeneration whose fragment and red flags
merge cleanly leaves exactly the merged profile in the session state. -/
theorem regenPhase_merge {s3 : SessionState} {d2 : Val} {pm2 : Profile}
    (hm : mergePhase s3.profile d2 = .ok pm2) :
    (regenPhase s3 (.json d2)).1.profile = pm2 := by
  obtain ⟨ex, p1, rf, red, hex, hp1, hrf, hred, rfl⟩ := mergePhase_inv hm
  unfold regenPhase
  rw [show regenerate_advance (OracleOut.json d2) = .ok d2 from rfl]
  simp only [hex, hp1, hrf, hred]
  repeat' split
  all_goals rfl

/-- C8: the de-duplication guard fires at most once per turn: every turn
issues zero or one regeneration; when the handler reaches the guard with a
proposed question, the regeneration is issued exactly when the proposed
question case-insensitively equals the last emitted assistant question
(after trimming); a structurally failing regeneration (transport error or
non-JSON) is replaced by the fixed neutral continuation phrase, and a
successful one has its fragment and red flags merged into the profile.
So even an Oracle that always repeats the last question leads to a
completed turn with exactly one regeneration, never an unbounded loop. -/
theorem C8_dedup_guard :
    (∀ (s : SessionState) (t : String) (o1 o2 : OracleOut), (turn s t o1 o2).regens ≤ 1) ∧
    (∀ (s s3 : SessionState) (t : String) (o1 o2 : OracleOut) (nq1 : String),
      preGuard s t o1 = .proceed s3 nq1 →
      (turn s t o1 o2).regens
        = if dedupGuardFires (lastAssistant s3.messages) nq1 then 1 else 0) ∧
    (∀ (s s3 : SessionState) (t : String) (o1 o2 : OracleOut) (nq1 : String),
      preGuard s t o1 = .proceed s3 nq1 →
      dedupGuardFires (lastAssistant s3.messages) nq1 = true →
      (regenerate_advance o2).isOk = false →
      (turn s t o1 o2).emitted = some neutral_continuation) ∧
    (∀ (s s3 : SessionState) (t : String) (o1 : OracleOut) (d2 : Val) (nq1 : String) (pm2 : Profile),
      preGuard s t o1 = .proceed s3 nq1 →
      dedupGuardFires (lastAssistant s3.messages) nq1 = true →
      mergePhase s3.profile d2 = .ok pm2 →
      (turn s t o1 (.json d2)).state.profile = pm2) := by
  refine ⟨?_, ?_, ?_, ?_⟩
  · intro s t o1 o2
    unfold turn
    cases hp : preGuard s t o1 with
    | crashedAt s' => exact Nat.zero_le 1
    | terminalAt s' => exact Nat.zero_le 1
    | proceed s3 nq1 =>
      show (postGuard s3 o2 nq1).regens ≤ 1
      rw [postGuard_regens]
      split
      · exact Nat.le_refl 1
      · exact Nat.zero_le 1
  · intro s s3 t o1 o2 nq1 hp
    unfold turn
    rw [hp]
    show (postGuard s3 o2 nq1).regens = _
    exact postGuard_regens s3 o2 nq1
  · intro s s3 t o1 o2 nq1 hp hf hfail
    unfold turn
    rw [hp]
    show (postGuard s3 o2 nq1).emitted = _
    rw [postGuard_fire hf, regenPhase_fail hfail]
    exact emitOrFinish_emitted (by rfl)
  · intro s s3 t o1 d2 nq1 pm2 hp hf hm
    unfold turn
    rw [hp]
    show (postGuard s3 (.json d2) nq1).state.profile = pm2
    rw [postGuard_fire hf, emitOrFinish_profile]
    exact regenPhase_merge hm

def repDataW8 : Val := .dict
  [("next_question", .str "What brings you in today?"),
   ("extracted_fields", .dict []), ("red_flags", .list [])]

def sW8 : SessionState := withProfile (withUser initState "hi") initialProfile

theorem C8_witness :
    (turn initState "hi" (.json repDataW8) .transportError).emitted
      = some neutral_continuation :=
  C8_dedup_guard.2.2.1 initState sW8 "hi" (.json repDataW8) .transportError
    "What brings you in today?" (by rfl) (by rfl) (by rfl)
